import Mathlib

/-!
Verification development for the dual-format solc AST ingestion layer
(`slither/solc_parsing/types/compact_json.py` and
`slither/solc_parsing/types/legacy_json.py`).

The raw input is a JSON document manipulated through Python dictionary and
list operations, so the embedding models JSON values together with the exact
Python access semantics the parsers rely on: `raw[key]` (KeyError /
TypeError), `raw.get(key, default)`, `key in raw`, truthiness tests,
integer indexing with negative indices, slicing, iteration, and `len`.
Failures are Python exceptions; the dispatch-level `parse` functions wrap
them into the structured `ParsingError`.

Modelling conventions: a raw object binds each key at most once (as after
`json.loads`), and object equality compares fields in order (the parsers
only ever compare raw values against string literals, where this agrees
with Python).
-/

/-- A raw JSON value, as materialized by Python's `json.loads`. -/
inductive Json where
  | null : Json
  | bool : Bool → Json
  | num : Int → Json
  | str : String → Json
  | arr : List Json → Json
  | obj : List (String × Json) → Json

/-- Python exceptions (other than `ParsingError`) that the parsing code can
raise: failed key lookups, type errors, bad list indices, missing
attributes, failed `assert` statements, and the interpreter recursion
limit. -/
inductive PyErr where
  | keyError (key : Json)
  | typeError (msg : String)
  | indexError (msg : String)
  | attributeError (msg : String)
  | assertionError
  | recursionError

mutual

/-- Structural equality of JSON values with Python's bool/int coercion
(`True == 1`). Containers compare field-by-field in order. -/
def jsonBeq : Json → Json → Bool
  | .null, .null => true
  | .bool a, .bool b => a == b
  | .bool a, .num n => (if a then (1 : Int) else 0) == n
  | .num n, .bool a => n == (if a then (1 : Int) else 0)
  | .num a, .num b => a == b
  | .str a, .str b => a == b
  | .arr a, .arr b => jsonBeqList a b
  | .obj a, .obj b => jsonBeqFields a b
  | _, _ => false

def jsonBeqList : List Json → List Json → Bool
  | [], [] => true
  | x :: xs, y :: ys => jsonBeq x y && jsonBeqList xs ys
  | _, _ => false

def jsonBeqFields : List (String × Json) → List (String × Json) → Bool
  | [], [] => true
  | (k1, v1) :: xs, (k2, v2) :: ys => k1 == k2 && jsonBeq v1 v2 && jsonBeqFields xs ys
  | _, _ => false

end

/-- Python truthiness of a JSON value. -/
def truthy : Json → Bool
  | .null => false
  | .bool b => b
  | .num n => n != 0
  | .str s => !s.isEmpty
  | .arr xs => !xs.isEmpty
  | .obj fs => !fs.isEmpty

/-- The ordered key list of an object (`raw.keys()`); the parsers only call
this on values already known to be dictionaries. -/
def Json.keys : Json → List String
  | .obj fs => fs.map Prod.fst
  | _ => []

/-- Python `raw[k]` for a string key `k`. -/
def pyItem : Json → String → Except PyErr Json
  | .obj fs, k =>
    match fs.lookup k with
    | some v => .ok v
    | none => .error (.keyError (.str k))
  | .null, _ => .error (.typeError "NoneType object is not subscriptable")
  | .arr _, _ => .error (.typeError "list indices must be integers or slices")
  | .str _, _ => .error (.typeError "string indices must be integers")
  | _, _ => .error (.typeError "object is not subscriptable")

/-- Python `raw.get(k, default)`. -/
def pyGetD : Json → String → Json → Except PyErr Json
  | .obj fs, k, d => .ok ((fs.lookup k).getD d)
  | _, _, _ => .error (.attributeError "get")

/-- Python `k in raw` for a string `k`. -/
def pyContains : Json → String → Except PyErr Bool
  | .obj fs, k => .ok (fs.any (fun f => f.1 == k))
  | .str s, k => .ok (decide ((s.splitOn k).length > 1))
  | .arr xs, k => .ok (xs.any (fun x => jsonBeq x (.str k)))
  | _, _ => .error (.typeError "argument is not iterable")

/-- Python `len(raw)`. -/
def pyLen : Json → Except PyErr Int
  | .arr xs => .ok xs.length
  | .str s => .ok s.length
  | .obj fs => .ok fs.length
  | _ => .error (.typeError "object has no len")

/-- Python `raw[i]` for an integer index, with negative-index resolution. -/
def pyIndex : Json → Int → Except PyErr Json
  | .arr xs, i =>
    let j := if i < 0 then i + xs.length else i
    if j < 0 then .error (.indexError "list index out of range")
    else
      match xs.get? j.toNat with
      | some v => .ok v
      | none => .error (.indexError "list index out of range")
  | .str s, i =>
    let j := if i < 0 then i + s.length else i
    if j < 0 then .error (.indexError "string index out of range")
    else
      match s.toList.get? j.toNat with
      | some c => .ok (.str c.toString)
      | none => .error (.indexError "string index out of range")
  | .obj _, i => .error (.keyError (.num i))
  | .null, _ => .error (.typeError "NoneType object is not subscriptable")
  | _, _ => .error (.typeError "object is not subscriptable")

/-- Resolve one slice bound against a sequence length, Python-style. -/
def sliceBound (len : Nat) (dflt : Int) (b : Option Int) : Nat :=
  let v := b.getD dflt
  let v := if v < 0 then v + len else v
  (max 0 (min v len)).toNat

/-- Python `raw[lo:hi]`. -/
def pySlice (j : Json) (lo hi : Option Int) : Except PyErr Json :=
  match j with
  | .arr xs => .ok (.arr ((xs.take (sliceBound xs.length xs.length hi)).drop (sliceBound xs.length 0 lo)))
  | .str s =>
    let cs := s.toList
    .ok (.str ⟨(cs.take (sliceBound cs.length cs.length hi)).drop (sliceBound cs.length 0 lo)⟩)
  | _ => .error (.typeError "object is not subscriptable")

/-- Python `for x in raw`: lists yield elements, strings characters,
dictionaries their keys. -/
def pyIter : Json → Except PyErr (List Json)
  | .arr xs => .ok xs
  | .str s => .ok (s.toList.map (fun c => .str c.toString))
  | .obj fs => .ok (fs.map (fun f => Json.str f.1))
  | _ => .error (.typeError "object is not iterable")

/-- Python `raw.startswith(pre)`. -/
def pyStartsWith (j : Json) (pre : String) : Except PyErr Bool :=
  match j with
  | .str s => .ok (s.startsWith pre)
  | _ => .error (.attributeError "startswith")

/-- Whether a JSON value is hashable in Python (usable as a dictionary-lookup
key). -/
def isHashable : Json → Bool
  | .arr _ => false
  | .obj _ => false
  | _ => true

/-!
The typed node model. `types.py` in the repository defines only the base
`ASTNode` (holding the source range), `Statement`, `Block`, `Expression`,
`Declaration`, `VariableDeclaration`, `VariableDeclarationStatement`,
`PrimaryExpression` and `Literal`; the remaining classes the two parsers
instantiate are not part of the shown sources.
Modelled from the spec: the missing node classes and their constructor
signatures follow §3 of the specification — every node carries a common
header of `id` and `sourceRange`, Expression nodes additionally carry
`typeString`/`isConstant`/`isPure`, Declaration nodes additionally carry
`name`/`canonicalName`/`visibility`, and call-shaped declarations carry
`parameters`/`returnParameters`.  Constructor fields holding raw values are
stored verbatim (Python is dynamically typed), so they are `Json` here;
recursively parsed children are `Node`, `Option Node`, `List Node` or
`List (Option Node)` as the extraction functions pass them.
-/

/-- Common node header: the raw `src` and `id` values, stored verbatim. -/
structure BaseProps where
  src : Json
  id : Json

/-- Expression header: base header plus `typeString`, `isConstant`,
`isPure` (stored verbatim). -/
structure ExprProps where
  base : BaseProps
  type_str : Json
  constant : Json
  pure : Json

/-- Declaration header: base header plus `name`, `canonicalName`,
`visibility` (stored verbatim). -/
structure DeclProps where
  base : BaseProps
  name : Json
  canonical_name : Json
  visibility : Json

/-- The closed set of node-kind variants produced by the two parsers
(§3 of the specification plus the constructor calls in both parsers). -/
inductive Node where
  | sourceUnit (nodes : List Node) (base : BaseProps)
  | pragmaDirective (literals : Json) (base : BaseProps)
  | importDirective (path : Json) (base : BaseProps)
  | contractDefinition (kind : Json) (linearized : Json) (nodes : List Node) (decl : DeclProps)
  | inheritanceSpecifier (basename : Node) (args : Option (List Node)) (base : BaseProps)
  | usingForDirective (library : Node) (typename : Option Node) (base : BaseProps)
  | structDefinition (members : List Node) (decl : DeclProps)
  | enumDefinition (members : List Node) (decl : DeclProps)
  | enumValue (decl : DeclProps)
  | parameterList (params : List (Option Node)) (base : BaseProps)
  | functionDefinition (mutability : Json) (kind : Json) (modifiers : List Node) (body : Node)
      (params : Node) (rets : Option Node) (decl : DeclProps)
  | variableDeclaration (typename : Node) (value : Option Node) (type_str : Json) (constant : Json)
      (decl : DeclProps)
  | modifierDefinition (body : Node) (params : Node) (rets : Option Node) (decl : DeclProps)
  | modifierInvocation (modifier : Node) (args : Option (List Node)) (base : BaseProps)
  | eventDefinition (anonymous : Json) (params : Node) (rets : Option Node) (decl : DeclProps)
  | elementaryTypeName (name : Json) (mutability : Json) (base : BaseProps)
  | userDefinedTypeName (name : Json) (base : BaseProps)
  | functionTypeName (params : Node) (rets : Node) (mutability : Json) (visibility : Json)
      (base : BaseProps)
  | mapping (key : Node) (value : Node) (base : BaseProps)
  | arrayTypeName (baseType : Node) (length : Option Node) (base : BaseProps)
  | inlineAssembly (payload : Json) (base : BaseProps)
  | block (statements : List Node) (base : BaseProps)
  | placeholderStatement (base : BaseProps)
  | ifStatement (condition : Node) (trueBody : Node) (falseBody : Option Node) (base : BaseProps)
  | tryCatchClause (errorName : Json) (params : Option Node) (blk : Node) (base : BaseProps)
  | tryStatement (externalCall : Node) (clauses : List Node) (base : BaseProps)
  | whileStatement (condition : Node) (body : Node) (isDoWhile : Bool) (base : BaseProps)
  | forStatement (init : Node) (condition : Node) (loopExpr : Node) (body : Node) (base : BaseProps)
  | continueStatement (base : BaseProps)
  | breakStatement (base : BaseProps)
  | returnStatement (expression : Option Node) (base : BaseProps)
  | throwStatement (base : BaseProps)
  | emitStatement (eventCall : Node) (base : BaseProps)
  | variableDeclarationStatement (vars : List (Option Node)) (initialValue : Option Node)
      (base : BaseProps)
  | expressionStatement (expression : Node) (base : BaseProps)
  | conditional (condition : Node) (trueExpr : Node) (falseExpr : Node) (expr : ExprProps)
  | assignment (left : Node) (operator : Json) (right : Node) (expr : ExprProps)
  | tupleExpression (components : List (Option Node)) (isArray : Json) (expr : ExprProps)
  | unaryOperation (operator : Json) (subExpr : Node) (isPrefixOp : Json) (expr : ExprProps)
  | binaryOperation (left : Node) (operator : Json) (right : Node) (expr : ExprProps)
  | functionCall (kind : Json) (expression : Node) (names : Json) (arguments : List Node)
      (expr : ExprProps)
  | functionCallOptions (expression : Node) (names : Json) (options : List Node) (expr : ExprProps)
  | newExpression (typename : Node) (expr : ExprProps)
  | memberAccess (expression : Node) (memberName : Json) (expr : ExprProps)
  | indexAccess (base : Node) (index : Option Node) (expr : ExprProps)
  | indexRangeAccess (base : Node) (start : Node) (stop : Option Node) (expr : ExprProps)
  | identifier (name : Json) (expr : ExprProps)
  | elementaryTypeNameExpression (typename : Node) (expr : ExprProps)
  | literal (kind : Json) (value : Json) (hexValue : Json) (subdenomination : Json)
      (expr : ExprProps)

/-- Membership in the Statement capability group (`isinstance(x, Statement)`).
Modelled from the spec: §3 lists the Statement variants (Block, If,
While/DoWhile, For, Try/TryCatchClause, Return, Break, Continue, Throw,
Emit, ExpressionStatement, VariableDeclarationStatement,
PlaceholderStatement). -/
def Node.isStatement : Node → Bool
  | .block .. => true
  | .ifStatement .. => true
  | .whileStatement .. => true
  | .forStatement .. => true
  | .tryStatement .. => true
  | .tryCatchClause .. => true
  | .returnStatement .. => true
  | .breakStatement .. => true
  | .continueStatement .. => true
  | .throwStatement .. => true
  | .emitStatement .. => true
  | .expressionStatement .. => true
  | .variableDeclarationStatement .. => true
  | .placeholderStatement .. => true
  | _ => false

/-- Membership in the Expression capability group
(`isinstance(x, Expression)`), per §3 of the specification. -/
def Node.isExpression : Node → Bool
  | .literal .. => true
  | .identifier .. => true
  | .assignment .. => true
  | .binaryOperation .. => true
  | .unaryOperation .. => true
  | .conditional .. => true
  | .tupleExpression .. => true
  | .functionCall .. => true
  | .functionCallOptions .. => true
  | .newExpression .. => true
  | .memberAccess .. => true
  | .indexAccess .. => true
  | .indexRangeAccess .. => true
  | .elementaryTypeNameExpression .. => true
  | _ => false

/-- Membership in the TypeName capability group (`isinstance(x, TypeName)`),
per §3 of the specification. -/
def Node.isTypeName : Node → Bool
  | .elementaryTypeName .. => true
  | .userDefinedTypeName .. => true
  | .functionTypeName .. => true
  | .mapping .. => true
  | .arrayTypeName .. => true
  | _ => false

/-- Exact-class test `isinstance(x, VariableDeclaration)`. -/
def Node.isVariableDeclaration : Node → Bool
  | .variableDeclaration .. => true
  | _ => false

/-- Exact-class test `isinstance(x, ParameterList)`. -/
def Node.isParameterList : Node → Bool
  | .parameterList .. => true
  | _ => false

/-- Exact-class test `isinstance(x, Block)`. -/
def Node.isBlock : Node → Bool
  | .block .. => true
  | _ => false

/-- Exact-class test `isinstance(x, ModifierInvocation)`. -/
def Node.isModifierInvocation : Node → Bool
  | .modifierInvocation .. => true
  | _ => false

/-- Exact-class test `isinstance(x, Identifier)`. -/
def Node.isIdentifier : Node → Bool
  | .identifier .. => true
  | _ => false

/-- Exact-class test `isinstance(x, UserDefinedTypeName)`. -/
def Node.isUserDefinedTypeName : Node → Bool
  | .userDefinedTypeName .. => true
  | _ => false

/-- Exact-class test `isinstance(x, ElementaryTypeName)`. -/
def Node.isElementaryTypeName : Node → Bool
  | .elementaryTypeName .. => true
  | _ => false

/-- Exact-class test `isinstance(x, EnumValue)`. -/
def Node.isEnumValue : Node → Bool
  | .enumValue .. => true
  | _ => false

/-- Exact-class test `isinstance(x, TryCatchClause)`. -/
def Node.isTryCatchClause : Node → Bool
  | .tryCatchClause .. => true
  | _ => false

/-- Exact-class test `isinstance(x, ExpressionStatement)`. -/
def Node.isExpressionStatement : Node → Bool
  | .expressionStatement .. => true
  | _ => false

/-- Exact-class test `isinstance(x, FunctionCall)`. -/
def Node.isFunctionCall : Node → Bool
  | .functionCall .. => true
  | _ => false

/-- The structured parsing error (`slither.solc_parsing.exceptions.ParsingError`),
one constructor per raise site, carrying the positional arguments passed
there: the offending tag, the raw node's field names, for the legacy
unsupported path the `name` tags of the immediate children, and for the
dispatch-level wrap the causing Python exception. -/
inductive ParsingError where
  | unsupportedCompact (tag : Json) (fieldNames : List String) (raw : Json)
  | failedCompact (tag : Json) (cause : PyErr) (fieldNames : List String) (raw : Json)
  | unsupportedLegacy (tag : Json) (fieldNames : List String) (childNames : List Json) (raw : Json)
  | failedLegacy (tag : Json) (cause : PyErr) (fieldNames : List String) (raw : Json)

/-- The message string each `ParsingError` raise site passes first. -/
def ParsingError.message : ParsingError → String
  | .unsupportedCompact .. => "unsupported compact json node"
  | .failedCompact .. => "failed to parse compact json node"
  | .unsupportedLegacy .. => "unsupported legacy json node"
  | .failedLegacy .. => "failed to parse legacy json node"

/-- An exception in flight: either a plain Python exception or the
structured `ParsingError`. -/
inductive Exc where
  | py (e : PyErr)
  | parsing (e : ParsingError)

/-- Lift a Python-level failure into the exception monad. -/
def liftPy : Except PyErr α → Except Exc α
  | .ok a => .ok a
  | .error e => .error (.py e)

/-- `raw[k]` in the exception monad. -/
def jitem (raw : Json) (k : String) : Except Exc Json :=
  liftPy (pyItem raw k)

/-- `raw.get(k, d)` in the exception monad. -/
def jgetD (raw : Json) (k : String) (d : Json) : Except Exc Json :=
  liftPy (pyGetD raw k d)

/-- `k in raw` in the exception monad. -/
def jcontains (raw : Json) (k : String) : Except Exc Bool :=
  liftPy (pyContains raw k)

/-- A Python `assert`: raises `AssertionError` when the test fails. -/
def passert (b : Bool) : Except Exc Unit :=
  if b then .ok () else .error (.py .assertionError)

/-- Raise a plain Python exception. -/
def throwPy (e : PyErr) : Except Exc α :=
  .error (.py e)

/-- The type of a recursive-descent parse function over raw nodes. -/
abbrev Parser := Json → Except Exc Node

/-- A `for child in cs:` loop that parses every element and `assert`s it
belongs to the expected capability group; shared shape of the child-list
loops in both parsers (the group test is the loop's `isinstance` class). -/
def parseAll (p : Parser) (check : Node → Bool) : List Json → Except Exc (List Node)
  | [] => .ok []
  | c :: cs => do
    let n ← p c
    passert (check n)
    let rest ← parseAll p check cs
    return n :: rest

/-- A `for child in cs:` loop that parses every element with no
`isinstance` assertion (source-unit and contract children). -/
def parseEach (p : Parser) : List Json → Except Exc (List Node)
  | [] => .ok []
  | c :: cs => do
    let n ← p c
    let rest ← parseEach p cs
    return n :: rest

/-- A `for child in cs:` loop that keeps `None` placeholders: a falsy slot
is appended as `None`, a truthy one is parsed and checked against the
expected capability group (tuple components pass a trivial check). -/
def parseAllOpt (p : Parser) (check : Node → Bool) : List Json → Except Exc (List (Option Node))
  | [] => .ok []
  | c :: cs => do
    if truthy c then
      let n ← p c
      passert (check n)
      let rest ← parseAllOpt p check cs
      return some n :: rest
    else
      let rest ← parseAllOpt p check cs
      return none :: rest

/-- A `for child in cs:` loop that parses and `assert`s every element but
never appends the result (the member loops of the compact
`parse_struct_definition` / `parse_enum_definition` leave their accumulator
untouched). -/
def checkAll (p : Parser) (check : Node → Bool) : List Json → Except Exc Unit
  | [] => .ok ()
  | c :: cs => do
    let n ← p c
    passert (check n)
    checkAll p check cs

/-- `[node['name'] for node in cs]` in the legacy unsupported path. -/
def childNameList : List Json → Except Exc (List Json)
  | [] => .ok []
  | c :: cs => do
    let n ← jitem c "name"
    let rest ← childNameList cs
    return n :: rest

namespace Legacy

/-- `legacy_json._extract_base_props`: a `SourceUnit` raw node receives the
sentinel id `-1` and an empty source range; every other node passes its raw
`src` and `id` through. -/
def extract_base_props (raw : Json) : Except Exc BaseProps := do
  let nm ← jitem raw "name"
  if jsonBeq nm (.str "SourceUnit") then
    return ⟨Json.str "", Json.num (-1)⟩
  else
    let src ← jitem raw "src"
    let i ← jitem raw "id"
    return ⟨src, i⟩

/-- `legacy_json._extract_decl_props`. -/
def extract_decl_props (raw : Json) : Except Exc DeclProps := do
  let base ← extract_base_props raw
  let attrs ← jitem raw "attributes"
  let nm ← jitem attrs "name"
  let canon ← jgetD raw "canonicalName" (.str "")
  let vis ← jgetD attrs "visibility" (.str "public")
  return ⟨base, nm, canon, vis⟩

/-- `legacy_json._extract_expr_props`: the type string comes from
`attributes`, while `isConstant` / `isPure` are read from the top level of
the raw node with default `False`. -/
def extract_expr_props (raw : Json) : Except Exc ExprProps := do
  let base ← extract_base_props raw
  let attrs ← jitem raw "attributes"
  let ts ← jitem attrs "type"
  let c ← jgetD raw "isConstant" (.bool false)
  let pr ← jgetD raw "isPure" (.bool false)
  return ⟨base, ts, c, pr⟩

/-- `legacy_json.parse_variable_definition_statement`: every child but the
last must parse as a `VariableDeclaration`; the parsed last child is
appended to the variable list when it is itself a `VariableDeclaration`,
otherwise it becomes the initializer. -/
def parse_variable_definition_statement (p : Parser) (raw : Json) : Except Exc Node := do
  let ch ← jitem raw "children"
  let front ← liftPy (pySlice ch none (some (-1)))
  let cs ← liftPy (pyIter front)
  let parsed_children ← parseAll p Node.isVariableDeclaration cs
  let last_child ← p (← liftPy (pyIndex ch (-1)))
  if last_child.isVariableDeclaration then
    return .variableDeclarationStatement ((parsed_children ++ [last_child]).map some) none
      (← extract_base_props raw)
  else
    return .variableDeclarationStatement (parsed_children.map some) (some last_child)
      (← extract_base_props raw)

/-- `legacy_json.parse_expression_statement`. -/
def parse_expression_statement (p : Parser) (raw : Json) : Except Exc Node := do
  let ch ← jitem raw "children"
  let e ← p (← liftPy (pyIndex ch 0))
  passert e.isExpression
  return .expressionStatement e (← extract_base_props raw)

/-- `legacy_json.parse_conditional`. -/
def parse_conditional (p : Parser) (raw : Json) : Except Exc Node := do
  let ch ← jitem raw "children"
  let t ← p (← liftPy (pyIndex ch 0))
  passert t.isExpression
  let f ← p (← liftPy (pyIndex ch 1))
  passert f.isExpression
  let c ← p (← liftPy (pyIndex ch 2))
  passert c.isExpression
  return .conditional c t f (← extract_expr_props raw)

/-- `legacy_json.parse_assignment`. -/
def parse_assignment (p : Parser) (raw : Json) : Except Exc Node := do
  let ch ← jitem raw "children"
  let l ← p (← liftPy (pyIndex ch 0))
  passert l.isExpression
  let r ← p (← liftPy (pyIndex ch 1))
  passert r.isExpression
  let attrs ← jitem raw "attributes"
  let op ← jitem attrs "operator"
  return .assignment l op r (← extract_expr_props raw)

/-- `legacy_json.parse_tuple_expression`: falsy child slots stay `None`;
the inline-array flag is always `False` in the legacy format. -/
def parse_tuple_expression (p : Parser) (raw : Json) : Except Exc Node := do
  let ch ← jitem raw "children"
  let comps ← parseAllOpt p Node.isExpression (← liftPy (pyIter ch))
  return .tupleExpression comps (.bool false) (← extract_expr_props raw)

/-- `legacy_json.parse_binary_operation`. -/
def parse_binary_operation (p : Parser) (raw : Json) : Except Exc Node := do
  let ch ← jitem raw "children"
  let l ← p (← liftPy (pyIndex ch 0))
  let r ← p (← liftPy (pyIndex ch 1))
  passert l.isExpression
  passert r.isExpression
  let attrs ← jitem raw "attributes"
  let op ← jitem attrs "operator"
  return .binaryOperation l op r (← extract_expr_props raw)

/-- `legacy_json.parse_function_call`: the call kind prefers the explicit
struct-constructor flag, then the type-conversion flag, then a
`struct `-prefix test on the type string. -/
def parse_function_call (p : Parser) (raw : Json) : Except Exc Node := do
  let attrs ← jitem raw "attributes"
  let hasISCC ← jcontains attrs "isStructConstructorCall"
  let kind ←
    if hasISCC then do
      let iscc ← jitem attrs "isStructConstructorCall"
      if truthy iscc then
        pure (Json.str "structConstructorCall")
      else do
        let tc ← jitem attrs "type_conversion"
        pure (if truthy tc then Json.str "typeConversion" else Json.str "functionCall")
    else do
      let tc ← jitem attrs "type_conversion"
      if truthy tc then
        pure (Json.str "typeConversion")
      else do
        let ty ← jitem attrs "type"
        let sw ← liftPy (pyStartsWith ty "struct ")
        pure (if sw then Json.str "structConstructorCall" else Json.str "functionCall")
  let hasNames ← jcontains attrs "names"
  let names ← if hasNames then jitem attrs "names" else pure (Json.arr [])
  let ch ← jitem raw "children"
  let call ← p (← liftPy (pyIndex ch 0))
  passert call.isExpression
  let rest ← liftPy (pySlice ch (some 1) none)
  let args ← parseAll p Node.isExpression (← liftPy (pyIter rest))
  return .functionCall kind call names args (← extract_expr_props raw)

/-- `legacy_json.parse_function_call_options`. -/
def parse_function_call_options (p : Parser) (raw : Json) : Except Exc Node := do
  let ch ← jitem raw "children"
  let e ← p (← liftPy (pyIndex ch 0))
  passert e.isExpression
  let attrs ← jitem raw "attributes"
  let names ← jitem attrs "names"
  passert (match names with | .arr _ => true | _ => false)
  passert (match names with
    | .arr xs => xs.all (fun x => match x with | .str _ => true | _ => false)
    | _ => true)
  let rest ← liftPy (pySlice ch (some 1) none)
  let options ← parseAll p Node.isExpression (← liftPy (pyIter rest))
  return .functionCallOptions e names options (← extract_expr_props raw)

/-- `legacy_json.parse_new_expression`. -/
def parse_new_expression (p : Parser) (raw : Json) : Except Exc Node := do
  let ch ← jitem raw "children"
  let tn ← p (← liftPy (pyIndex ch 0))
  passert tn.isTypeName
  return .newExpression tn (← extract_expr_props raw)

/-- `legacy_json.parse_member_access`. -/
def parse_member_access (p : Parser) (raw : Json) : Except Exc Node := do
  let ch ← jitem raw "children"
  let e ← p (← liftPy (pyIndex ch 0))
  passert e.isExpression
  let attrs ← jitem raw "attributes"
  let mn ← jitem attrs "member_name"
  return .memberAccess e mn (← extract_expr_props raw)

/-- `legacy_json.parse_throw` calls `Throw(raw['src'])`, supplying only the
source range. Modelled from the spec: the `Throw` class is not among the
node classes shown in `types.py`; per §3 every node's constructor takes
both `id` and `sourceRange` (the compact `parse_throw` passes exactly
those two), so the legacy call is missing its `id` argument and raises a
`TypeError` after evaluating `raw['src']`. -/
def parse_throw (_p : Parser) (raw : Json) : Except Exc Node := do
  let _src ← jitem raw "src"
  throwPy (.typeError "Throw missing required positional argument id")

/-- `legacy_json.parse_source_unit`. -/
def parse_source_unit (p : Parser) (raw : Json) : Except Exc Node := do
  let ch ← jitem raw "children"
  let nodes ← parseEach p (← liftPy (pyIter ch))
  return .sourceUnit nodes (← extract_base_props raw)

/-- `legacy_json.parse_pragma_directive`. -/
def parse_pragma_directive (_p : Parser) (raw : Json) : Except Exc Node := do
  let attrs ← jitem raw "attributes"
  let lits ← jitem attrs "literals"
  return .pragmaDirective lits (← extract_base_props raw)

/-- `legacy_json.parse_contract_definition`: the contract kind prefers the
explicit `contractKind` attribute; otherwise `isLibrary` → "library", else
`fullyImplemented` → "contract", else "interface". -/
def parse_contract_definition (p : Parser) (raw : Json) : Except Exc Node := do
  let attrs ← jitem raw "attributes"
  let hasKind ← jcontains attrs "contractKind"
  let kind ←
    if hasKind then jitem attrs "contractKind"
    else do
      let isLib ← jitem attrs "isLibrary"
      if truthy isLib then pure (Json.str "library")
      else do
        let fi ← jitem attrs "fullyImplemented"
        pure (if truthy fi then Json.str "contract" else Json.str "interface")
  let lin ← jitem attrs "linearizedBaseContracts"
  let hasCh ← jcontains raw "children"
  let nodes ←
    if hasCh then do
      let ch ← jitem raw "children"
      parseEach p (← liftPy (pyIter ch))
    else pure []
  return .contractDefinition kind lin nodes (← extract_decl_props raw)

/-- `legacy_json.parse_inheritance_specifier`. -/
def parse_inheritance_specifier (p : Parser) (raw : Json) : Except Exc Node := do
  let ch ← jitem raw "children"
  let b ← p (← liftPy (pyIndex ch 0))
  passert b.isUserDefinedTypeName
  let n ← liftPy (pyLen ch)
  if n > 1 then
    let rest ← liftPy (pySlice ch (some 1) none)
    let args ← parseAll p Node.isExpression (← liftPy (pyIter rest))
    return .inheritanceSpecifier b (some args) (← extract_base_props raw)
  else
    return .inheritanceSpecifier b none (← extract_base_props raw)

/-- `legacy_json.parse_using_for_directive`. -/
def parse_using_for_directive (p : Parser) (raw : Json) : Except Exc Node := do
  let ch ← jitem raw "children"
  let lib ← p (← liftPy (pyIndex ch 0))
  passert lib.isUserDefinedTypeName
  let n ← liftPy (pyLen ch)
  if n > 1 then
    let tn ← p (← liftPy (pyIndex ch 1))
    passert tn.isTypeName
    return .usingForDirective lib (some tn) (← extract_base_props raw)
  else
    return .usingForDirective lib none (← extract_base_props raw)

/-- `legacy_json.parse_struct_definition`: `canonicalName` is read from the
attributes when present, else `None`; visibility is `None`. -/
def parse_struct_definition (p : Parser) (raw : Json) : Except Exc Node := do
  let attrs ← jitem raw "attributes"
  let hasCanon ← jcontains attrs "canonicalName"
  let canon ← if hasCanon then jitem attrs "canonicalName" else pure Json.null
  let ch ← jitem raw "children"
  let members ← parseAll p Node.isVariableDeclaration (← liftPy (pyIter ch))
  let nm ← jitem attrs "name"
  let base ← extract_base_props raw
  return .structDefinition members ⟨base, nm, canon, .null⟩

/-- `legacy_json.parse_enum_definition`. -/
def parse_enum_definition (p : Parser) (raw : Json) : Except Exc Node := do
  let attrs ← jitem raw "attributes"
  let hasCanon ← jcontains attrs "canonicalName"
  let canon ← if hasCanon then jitem attrs "canonicalName" else pure Json.null
  let ch ← jitem raw "children"
  let members ← parseAll p Node.isEnumValue (← liftPy (pyIter ch))
  let nm ← jitem attrs "name"
  let base ← extract_base_props raw
  return .enumDefinition members ⟨base, nm, canon, .null⟩

/-- `legacy_json.parse_enum_value`. -/
def parse_enum_value (_p : Parser) (raw : Json) : Except Exc Node := do
  let attrs ← jitem raw "attributes"
  let nm ← jitem attrs "name"
  let base ← extract_base_props raw
  return .enumValue ⟨base, nm, .null, .null⟩

/-- `legacy_json.parse_function_definition`: mutability prefers the explicit
`stateMutability` attribute, else derives from the boolean `payable`
attribute, else defaults to "payable"; the kind prefers the explicit `kind`
attribute, else the `isConstructor` flag, else infers fallback/function
from the emptiness of the name. -/
def parse_function_definition (p : Parser) (raw : Json) : Except Exc Node := do
  let attrs ← jitem raw "attributes"
  let hasSM ← jcontains attrs "stateMutability"
  let mutability ←
    if hasSM then jitem attrs "stateMutability"
    else do
      let hasPay ← jcontains attrs "payable"
      if hasPay then do
        let pay ← jitem attrs "payable"
        pure (if truthy pay then Json.str "payable" else Json.str "nonpayable")
      else pure (Json.str "payable")
  let hasKind ← jcontains attrs "kind"
  let kind ←
    if hasKind then jitem attrs "kind"
    else do
      let hasCtor ← jcontains attrs "isConstructor"
      let isCtor ← if hasCtor then jitem attrs "isConstructor" else pure Json.null
      if hasCtor && truthy isCtor then pure (Json.str "constructor")
      else do
        let nm ← jitem attrs "name"
        pure (if jsonBeq nm (.str "") then Json.str "fallback" else Json.str "function")
  let ch ← jitem raw "children"
  let n ← liftPy (pyLen ch)
  passert (n ≥ 3)
  let params ← p (← liftPy (pyIndex ch 0))
  passert params.isParameterList
  let rets ← p (← liftPy (pyIndex ch 1))
  passert rets.isParameterList
  let mids ← liftPy (pySlice ch (some 2) (some (-1)))
  let modifiers ← parseAll p Node.isModifierInvocation (← liftPy (pyIter mids))
  let body ← p (← liftPy (pyIndex ch (-1)))
  passert body.isBlock
  return .functionDefinition mutability kind modifiers body params (some rets)
    (← extract_decl_props raw)

/-- `legacy_json.parse_parameter_list`: falsy child slots stay `None`. -/
def parse_parameter_list (p : Parser) (raw : Json) : Except Exc Node := do
  let ch ← jitem raw "children"
  let ps ← parseAllOpt p Node.isVariableDeclaration (← liftPy (pyIter ch))
  return .parameterList ps (← extract_base_props raw)

/-- `legacy_json.parse_elementary_type_name`: mutability prefers the
explicit `stateMutability` attribute; otherwise it is "payable" exactly for
the type named `address`, else `None`. -/
def parse_elementary_type_name (_p : Parser) (raw : Json) : Except Exc Node := do
  let attrs ← jitem raw "attributes"
  let hasSM ← jcontains attrs "stateMutability"
  let mutability ←
    if hasSM then jitem attrs "stateMutability"
    else do
      let nm ← jitem attrs "name"
      pure (if jsonBeq nm (.str "address") then Json.str "payable" else Json.null)
  let nm ← jitem attrs "name"
  return .elementaryTypeName nm mutability (← extract_base_props raw)

/-- `legacy_json.parse_user_defined_type_name`. -/
def parse_user_defined_type_name (_p : Parser) (raw : Json) : Except Exc Node := do
  let attrs ← jitem raw "attributes"
  let nm ← jitem attrs "name"
  return .userDefinedTypeName nm (← extract_base_props raw)

/-- `legacy_json.parse_array_type_name`. -/
def parse_array_type_name (p : Parser) (raw : Json) : Except Exc Node := do
  let ch ← jitem raw "children"
  let b ← p (← liftPy (pyIndex ch 0))
  passert b.isTypeName
  let n ← liftPy (pyLen ch)
  if n > 1 then
    let l ← p (← liftPy (pyIndex ch 1))
    passert l.isExpression
    return .arrayTypeName b (some l) (← extract_base_props raw)
  else
    return .arrayTypeName b none (← extract_base_props raw)

/-- `legacy_json.parse_inline_assembly`. -/
def parse_inline_assembly (_p : Parser) (raw : Json) : Except Exc Node := do
  let attrs ← jitem raw "attributes"
  let ops ← jitem attrs "operations"
  return .inlineAssembly ops (← extract_base_props raw)

/-- `legacy_json.parse_block`. -/
def parse_block (p : Parser) (raw : Json) : Except Exc Node := do
  let ch ← jitem raw "children"
  let stmts ← parseAll p Node.isStatement (← liftPy (pyIter ch))
  return .block stmts (← extract_base_props raw)

/-- `legacy_json.parse_placeholder_statement`. -/
def parse_placeholder_statement (_p : Parser) (raw : Json) : Except Exc Node := do
  return .placeholderStatement (← extract_base_props raw)

/-- `legacy_json.parse_return`. -/
def parse_return (p : Parser) (raw : Json) : Except Exc Node := do
  let ch ← jitem raw "children"
  let n ← liftPy (pyLen ch)
  if n > 0 then
    let e ← p (← liftPy (pyIndex ch 0))
    passert e.isExpression
    return .returnStatement (some e) (← extract_base_props raw)
  else
    return .returnStatement none (← extract_base_props raw)

/-- `legacy_json.parse_variable_declaration`. -/
def parse_variable_declaration (p : Parser) (raw : Json) : Except Exc Node := do
  let attrs ← jitem raw "attributes"
  let hasConst ← jcontains attrs "constant"
  let constant ← if hasConst then jitem attrs "constant" else pure (Json.bool false)
  let ch ← jitem raw "children"
  let tn ← p (← liftPy (pyIndex ch 0))
  passert tn.isTypeName
  let n ← liftPy (pyLen ch)
  let value ←
    if n > 1 then do
      let v ← p (← liftPy (pyIndex ch 1))
      passert v.isExpression
      pure (some v)
    else pure (none : Option Node)
  let ty ← jitem attrs "type"
  return .variableDeclaration tn value ty constant (← extract_decl_props raw)

/-- `legacy_json.parse_modifier_definition`. -/
def parse_modifier_definition (p : Parser) (raw : Json) : Except Exc Node := do
  let ch ← jitem raw "children"
  let params ← p (← liftPy (pyIndex ch 0))
  passert params.isParameterList
  let body ← p (← liftPy (pyIndex ch 1))
  passert body.isBlock
  let attrs ← jitem raw "attributes"
  let nm ← jitem attrs "name"
  let base ← extract_base_props raw
  return .modifierDefinition body params none ⟨base, nm, .null, .null⟩

/-- `legacy_json.parse_modifier_invocation`. -/
def parse_modifier_invocation (p : Parser) (raw : Json) : Except Exc Node := do
  let ch ← jitem raw "children"
  let nm ← p (← liftPy (pyIndex ch 0))
  passert nm.isIdentifier
  let rest ← liftPy (pySlice ch (some 1) none)
  let args ← parseAll p Node.isExpression (← liftPy (pyIter rest))
  return .modifierInvocation nm (some args) (← extract_base_props raw)

/-- `legacy_json.parse_index_access`. -/
def parse_index_access (p : Parser) (raw : Json) : Except Exc Node := do
  let ch ← jitem raw "children"
  let b ← p (← liftPy (pyIndex ch 0))
  passert b.isExpression
  let n ← liftPy (pyLen ch)
  if n > 1 then
    let i ← p (← liftPy (pyIndex ch 1))
    passert i.isExpression
    return .indexAccess b (some i) (← extract_expr_props raw)
  else
    return .indexAccess b none (← extract_expr_props raw)

/-- `legacy_json.parse_index_range_access`. -/
def parse_index_range_access (p : Parser) (raw : Json) : Except Exc Node := do
  let ch ← jitem raw "children"
  let b ← p (← liftPy (pyIndex ch 0))
  passert b.isExpression
  let s ← p (← liftPy (pyIndex ch 1))
  passert s.isExpression
  let n ← liftPy (pyLen ch)
  if n > 2 then
    let e ← p (← liftPy (pyIndex ch 2))
    passert e.isExpression
    return .indexRangeAccess b s (some e) (← extract_expr_props raw)
  else
    return .indexRangeAccess b s none (← extract_expr_props raw)

/-- `legacy_json.parse_identifier`. -/
def parse_identifier (_p : Parser) (raw : Json) : Except Exc Node := do
  let attrs ← jitem raw "attributes"
  let v ← jitem attrs "value"
  return .identifier v (← extract_expr_props raw)

/-- `legacy_json.parse_elementary_type_name_expression`. -/
def parse_elementary_type_name_expression (p : Parser) (raw : Json) : Except Exc Node := do
  let ch ← jitem raw "children"
  let tn ← p (← liftPy (pyIndex ch 0))
  passert tn.isElementaryTypeName
  return .elementaryTypeNameExpression tn (← extract_expr_props raw)

/-- `legacy_json.parse_literal`: all four literal fields come from the
`attributes` mapping. -/
def parse_literal (_p : Parser) (raw : Json) : Except Exc Node := do
  let attrs ← jitem raw "attributes"
  let tok ← jitem attrs "token"
  let v ← jitem attrs "value"
  let hv ← jitem attrs "hexvalue"
  let sd ← jitem attrs "subdenomination"
  return .literal tok v hv sd (← extract_expr_props raw)

/-- `legacy_json.parse_unsupported`: raises the structured error carrying
the unrecognized tag, the raw node's field names, and the `name` tags of
its immediate children. -/
def parse_unsupported (_p : Parser) (raw : Json) : Except Exc Node := do
  let nm ← jitem raw "name"
  let hasCh ← jcontains raw "children"
  let childNames ←
    if hasCh then do
      let ch ← jitem raw "children"
      childNameList (← liftPy (pyIter ch))
    else pure []
  .error (.parsing (.unsupportedLegacy nm raw.keys childNames raw))

/-- The legacy dispatch table (`legacy_json.PARSERS`), including both the
pre-0.4.7 and post-0.4.7 spellings of variable-definition statements;
commented-out kinds of the source are absent here as well. -/
def PARSERS : List (String × (Parser → Json → Except Exc Node)) := [
  ("SourceUnit", parse_source_unit),
  ("PragmaDirective", parse_pragma_directive),
  ("ContractDefinition", parse_contract_definition),
  ("InheritanceSpecifier", parse_inheritance_specifier),
  ("UsingForDirective", parse_using_for_directive),
  ("StructDefinition", parse_struct_definition),
  ("EnumDefinition", parse_enum_definition),
  ("EnumValue", parse_enum_value),
  ("ParameterList", parse_parameter_list),
  ("FunctionDefinition", parse_function_definition),
  ("VariableDeclaration", parse_variable_declaration),
  ("ModifierDefinition", parse_modifier_definition),
  ("ModifierInvocation", parse_modifier_invocation),
  ("ElementaryTypeName", parse_elementary_type_name),
  ("UserDefinedTypeName", parse_user_defined_type_name),
  ("ArrayTypeName", parse_array_type_name),
  ("InlineAssembly", parse_inline_assembly),
  ("Block", parse_block),
  ("PlaceholderStatement", parse_placeholder_statement),
  ("Return", parse_return),
  ("Throw", parse_throw),
  ("VariableDeclarationStatement", parse_variable_definition_statement),
  ("VariableDefinitionStatement", parse_variable_definition_statement),
  ("ExpressionStatement", parse_expression_statement),
  ("Conditional", parse_conditional),
  ("Assignment", parse_assignment),
  ("TupleExpression", parse_tuple_expression),
  ("BinaryOperation", parse_binary_operation),
  ("FunctionCall", parse_function_call),
  ("FunctionCallOptions", parse_function_call_options),
  ("NewExpression", parse_new_expression),
  ("MemberAccess", parse_member_access),
  ("IndexAccess", parse_index_access),
  ("IndexRangeAccess", parse_index_range_access),
  ("Identifier", parse_identifier),
  ("ElementaryTypeNameExpression", parse_elementary_type_name_expression),
  ("Literal", parse_literal)]

/-- `PARSERS.get(raw['name'], parse_unsupported)`: a string tag found in the
table selects its extraction function, any other hashable tag falls back to
`parse_unsupported`, and an unhashable tag raises a `TypeError`. -/
def dispatchOf (tag : Json) : Parser → Json → Except Exc Node :=
  match tag with
  | .str s =>
    match PARSERS.lookup s with
    | some f => f
    | none => parse_unsupported
  | t => if isHashable t then parse_unsupported else fun _ _ => throwPy (.typeError "unhashable type")

/-- `legacy_json.parse`, fuel-indexed: the fuel models the Python recursion
limit (`RecursionError` when exhausted). The dispatch boundary re-raises a
`ParsingError` unchanged and wraps any other exception into
`failedLegacy` with the original exception as its cause; a failure while
reading the tag itself escapes unwrapped, because the handler re-reads the
tag while building the wrapper. -/
def parse : Nat → Json → Except Exc Node
  | 0, _ => .error (.py .recursionError)
  | fuel+1, raw =>
    match pyItem raw "name" with
    | .error e => .error (.py e)
    | .ok tag =>
      match dispatchOf tag (parse fuel) raw with
      | .ok n => .ok n
      | .error (.parsing e) => .error (.parsing e)
      | .error (.py e) => .error (.parsing (.failedLegacy tag e raw.keys raw))

end Legacy

namespace Compact

/-- `compact_json._extract_base_props`: raw `src` and `id` pass through. -/
def extract_base_props (raw : Json) : Except Exc BaseProps := do
  let src ← jitem raw "src"
  let i ← jitem raw "id"
  return ⟨src, i⟩

/-- `compact_json._extract_expr_props`: the type string comes from
`typeDescriptions.typeString`; `isConstant` / `isPure` are read from the top
level of the raw node with default `False`. -/
def extract_expr_props (raw : Json) : Except Exc ExprProps := do
  let base ← extract_base_props raw
  let td ← jitem raw "typeDescriptions"
  let ts ← jitem td "typeString"
  let c ← jgetD raw "isConstant" (.bool false)
  let pr ← jgetD raw "isPure" (.bool false)
  return ⟨base, ts, c, pr⟩

/-- `compact_json._extract_decl_props`: `canonicalName` defaults to the
empty string and `visibility` to `None`. -/
def extract_decl_props (raw : Json) : Except Exc DeclProps := do
  let base ← extract_base_props raw
  let nm ← jitem raw "name"
  let canon ← jgetD raw "canonicalName" (.str "")
  let vis ← jgetD raw "visibility" Json.null
  return ⟨base, nm, canon, vis⟩

/-- `compact_json._extract_call_props`: recursively parses `parameters` and,
when the key exists, `returnParameters`. -/
def extract_call_props (p : Parser) (raw : Json) : Except Exc (DeclProps × Node × Option Node) := do
  let params ← p (← jitem raw "parameters")
  let hasRets ← jcontains raw "returnParameters"
  let rets ←
    if hasRets then do
      let r ← p (← jitem raw "returnParameters")
      pure (some r)
    else pure (none : Option Node)
  let decl ← extract_decl_props raw
  return (decl, params, rets)

/-- `compact_json.parse_source_unit`. -/
def parse_source_unit (p : Parser) (raw : Json) : Except Exc Node := do
  let ns ← jitem raw "nodes"
  let nodes ← parseEach p (← liftPy (pyIter ns))
  return .sourceUnit nodes (← extract_base_props raw)

/-- `compact_json.parse_pragma_directive`. -/
def parse_pragma_directive (_p : Parser) (raw : Json) : Except Exc Node := do
  let lits ← jitem raw "literals"
  return .pragmaDirective lits (← extract_base_props raw)

/-- `compact_json.parse_import_directive`. -/
def parse_import_directive (_p : Parser) (raw : Json) : Except Exc Node := do
  let ap ← jitem raw "absolutePath"
  return .importDirective ap (← extract_base_props raw)

/-- `compact_json.parse_contract_definition`: the contract kind is the
explicit `contractKind` field. -/
def parse_contract_definition (p : Parser) (raw : Json) : Except Exc Node := do
  let ns ← jitem raw "nodes"
  let nodes ← parseEach p (← liftPy (pyIter ns))
  let kind ← jitem raw "contractKind"
  let lin ← jitem raw "linearizedBaseContracts"
  return .contractDefinition kind lin nodes (← extract_decl_props raw)

/-- `compact_json.parse_inheritance_specifier`. -/
def parse_inheritance_specifier (p : Parser) (raw : Json) : Except Exc Node := do
  let b ← p (← jitem raw "baseName")
  passert b.isUserDefinedTypeName
  let argsRaw ← jitem raw "arguments"
  if truthy argsRaw then
    let args ← parseAll p Node.isExpression (← liftPy (pyIter argsRaw))
    return .inheritanceSpecifier b (some args) (← extract_base_props raw)
  else
    return .inheritanceSpecifier b none (← extract_base_props raw)

/-- `compact_json.parse_using_for_directive`: both the library name and the
type name are required children here. -/
def parse_using_for_directive (p : Parser) (raw : Json) : Except Exc Node := do
  let lib ← p (← jitem raw "libraryName")
  passert lib.isUserDefinedTypeName
  let tn ← p (← jitem raw "typeName")
  passert tn.isTypeName
  return .usingForDirective lib (some tn) (← extract_base_props raw)

/-- `compact_json.parse_struct_definition`: each element of `members` is
parsed and checked, but the accumulator list is never appended to, exactly
as in the source, so the constructed node always carries an empty member
list. -/
def parse_struct_definition (p : Parser) (raw : Json) : Except Exc Node := do
  let members_parsed : List Node := []
  let ms ← jitem raw "members"
  checkAll p Node.isVariableDeclaration (← liftPy (pyIter ms))
  return .structDefinition members_parsed (← extract_decl_props raw)

/-- `compact_json.parse_enum_definition`: same never-appended accumulator
as `parse_struct_definition`. -/
def parse_enum_definition (p : Parser) (raw : Json) : Except Exc Node := do
  let members_parsed : List Node := []
  let ms ← jitem raw "members"
  checkAll p Node.isEnumValue (← liftPy (pyIter ms))
  return .enumDefinition members_parsed (← extract_decl_props raw)

/-- `compact_json.parse_enum_value`. -/
def parse_enum_value (_p : Parser) (raw : Json) : Except Exc Node := do
  return .enumValue (← extract_decl_props raw)

/-- `compact_json.parse_parameter_list`: every slot is a required
`VariableDeclaration` in the compact format. -/
def parse_parameter_list (p : Parser) (raw : Json) : Except Exc Node := do
  let ps ← jitem raw "parameters"
  let parsed ← parseAll p Node.isVariableDeclaration (← liftPy (pyIter ps))
  return .parameterList (parsed.map some) (← extract_base_props raw)

/-- `compact_json.parse_function_definition`: mutability and kind are the
explicit `stateMutability` and `kind` fields. -/
def parse_function_definition (p : Parser) (raw : Json) : Except Exc Node := do
  let body ← p (← jitem raw "body")
  passert body.isBlock
  let ms ← jitem raw "modifiers"
  let modifiers ← parseAll p Node.isModifierInvocation (← liftPy (pyIter ms))
  let sm ← jitem raw "stateMutability"
  let kind ← jitem raw "kind"
  let (decl, params, rets) ← extract_call_props p raw
  return .functionDefinition sm kind modifiers body params rets decl

/-- `compact_json.parse_variable_declaration`. -/
def parse_variable_declaration (p : Parser) (raw : Json) : Except Exc Node := do
  let tn ← p (← jitem raw "typeName")
  passert tn.isTypeName
  let v ← jitem raw "value"
  let value ←
    if truthy v then do
      let vp ← p v
      passert vp.isExpression
      pure (some vp)
    else pure (none : Option Node)
  let td ← jitem raw "typeDescriptions"
  let ts ← jitem td "typeString"
  let c ← jitem raw "constant"
  return .variableDeclaration tn value ts c (← extract_decl_props raw)

/-- `compact_json.parse_modifier_definition`. -/
def parse_modifier_definition (p : Parser) (raw : Json) : Except Exc Node := do
  let body ← p (← jitem raw "body")
  passert body.isBlock
  let (decl, params, rets) ← extract_call_props p raw
  return .modifierDefinition body params rets decl

/-- `compact_json.parse_modifier_invocation`: a falsy `arguments` value
yields `None` rather than an empty list. -/
def parse_modifier_invocation (p : Parser) (raw : Json) : Except Exc Node := do
  let argsRaw ← jitem raw "arguments"
  let args ←
    if truthy argsRaw then do
      let parsed ← parseAll p Node.isExpression (← liftPy (pyIter argsRaw))
      pure (some parsed)
    else pure (none : Option (List Node))
  let nm ← p (← jitem raw "modifierName")
  passert nm.isIdentifier
  return .modifierInvocation nm args (← extract_base_props raw)

/-- `compact_json.parse_event_definition`. -/
def parse_event_definition (p : Parser) (raw : Json) : Except Exc Node := do
  let anon ← jitem raw "anonymous"
  let (decl, params, rets) ← extract_call_props p raw
  return .eventDefinition anon params rets decl

/-- `compact_json.parse_elementary_type_name`: mutability is the
`stateMutability` field when the key exists, else `None`. -/
def parse_elementary_type_name (_p : Parser) (raw : Json) : Except Exc Node := do
  let nm ← jitem raw "name"
  let hasSM ← jcontains raw "stateMutability"
  let mutability ← if hasSM then jitem raw "stateMutability" else pure Json.null
  return .elementaryTypeName nm mutability (← extract_base_props raw)

/-- `compact_json.parse_user_defined_type_name`. -/
def parse_user_defined_type_name (_p : Parser) (raw : Json) : Except Exc Node := do
  let nm ← jitem raw "name"
  return .userDefinedTypeName nm (← extract_base_props raw)

/-- `compact_json.parse_function_type_name`. -/
def parse_function_type_name (p : Parser) (raw : Json) : Except Exc Node := do
  let params ← p (← jitem raw "parameterTypes")
  passert params.isParameterList
  let rets ← p (← jitem raw "returnParameterTypes")
  passert rets.isParameterList
  let sm ← jitem raw "stateMutability"
  let vis ← jitem raw "visibility"
  return .functionTypeName params rets sm vis (← extract_base_props raw)

/-- `compact_json.parse_mapping`. -/
def parse_mapping (p : Parser) (raw : Json) : Except Exc Node := do
  let k ← p (← jitem raw "keyType")
  passert k.isTypeName
  let v ← p (← jitem raw "valueType")
  passert v.isTypeName
  return .mapping k v (← extract_base_props raw)

/-- `compact_json.parse_array_type_name`. -/
def parse_array_type_name (p : Parser) (raw : Json) : Except Exc Node := do
  let b ← p (← jitem raw "baseType")
  passert b.isTypeName
  let lenRaw ← jitem raw "length"
  if truthy lenRaw then
    let l ← p lenRaw
    passert l.isExpression
    return .arrayTypeName b (some l) (← extract_base_props raw)
  else
    return .arrayTypeName b none (← extract_base_props raw)

/-- `compact_json.parse_inline_assembly`: the `AST` payload is carried
opaquely. -/
def parse_inline_assembly (_p : Parser) (raw : Json) : Except Exc Node := do
  let ast ← jitem raw "AST"
  return .inlineAssembly ast (← extract_base_props raw)

/-- `compact_json.parse_block`. -/
def parse_block (p : Parser) (raw : Json) : Except Exc Node := do
  let ss ← jitem raw "statements"
  let stmts ← parseAll p Node.isStatement (← liftPy (pyIter ss))
  return .block stmts (← extract_base_props raw)

/-- `compact_json.parse_placeholder_statement`. -/
def parse_placeholder_statement (_p : Parser) (raw : Json) : Except Exc Node := do
  return .placeholderStatement (← extract_base_props raw)

/-- `compact_json.parse_if_statement`: a missing or falsy `falseBody` passes
through as `None`. -/
def parse_if_statement (p : Parser) (raw : Json) : Except Exc Node := do
  let cond ← p (← jitem raw "condition")
  let tb ← p (← jitem raw "trueBody")
  let hasFB ← jcontains raw "falseBody"
  let fb ←
    if hasFB then do
      let fbRaw ← jitem raw "falseBody"
      if truthy fbRaw then do
        let f ← p fbRaw
        passert f.isStatement
        pure (some f)
      else pure (none : Option Node)
    else pure (none : Option Node)
  passert cond.isExpression
  passert tb.isStatement
  return .ifStatement cond tb fb (← extract_base_props raw)

/-- `compact_json.parse_try_catch_clause`. -/
def parse_try_catch_clause (p : Parser) (raw : Json) : Except Exc Node := do
  let en ← jitem raw "errorName"
  let psRaw ← jitem raw "parameters"
  let params ←
    if truthy psRaw then do
      let ps ← p psRaw
      passert ps.isParameterList
      pure (some ps)
    else pure (none : Option Node)
  let blk ← p (← jitem raw "block")
  passert blk.isBlock
  return .tryCatchClause en params blk (← extract_base_props raw)

/-- `compact_json.parse_try_statement`. -/
def parse_try_statement (p : Parser) (raw : Json) : Except Exc Node := do
  let ec ← p (← jitem raw "externalCall")
  passert ec.isExpression
  let cs ← jitem raw "clauses"
  let clauses ← parseAll p Node.isTryCatchClause (← liftPy (pyIter cs))
  return .tryStatement ec clauses (← extract_base_props raw)

/-- `compact_json.parse_while_statement_internal`. -/
def parse_while_statement_internal (p : Parser) (raw : Json) (is_do_while : Bool) :
    Except Exc Node := do
  let cond ← p (← jitem raw "condition")
  passert cond.isExpression
  let body ← p (← jitem raw "body")
  passert body.isStatement
  return .whileStatement cond body is_do_while (← extract_base_props raw)

/-- `compact_json.parse_while_statement`. -/
def parse_while_statement (p : Parser) (raw : Json) : Except Exc Node :=
  parse_while_statement_internal p raw false

/-- `compact_json.parse_do_while_statement`. -/
def parse_do_while_statement (p : Parser) (raw : Json) : Except Exc Node :=
  parse_while_statement_internal p raw true

/-- `compact_json.parse_for_statement`: all four children, the
initialization expression included, are required — the raw field is read
with `raw['initializationExpression']` and the result parsed
unconditionally. -/
def parse_for_statement (p : Parser) (raw : Json) : Except Exc Node := do
  let ini ← p (← jitem raw "initializationExpression")
  passert ini.isStatement
  let cond ← p (← jitem raw "condition")
  passert cond.isExpression
  let loop ← p (← jitem raw "loopExpression")
  passert loop.isExpressionStatement
  let body ← p (← jitem raw "body")
  passert body.isStatement
  return .forStatement ini cond loop body (← extract_base_props raw)

/-- `compact_json.parse_continue`. -/
def parse_continue (_p : Parser) (raw : Json) : Except Exc Node := do
  return .continueStatement (← extract_base_props raw)

/-- `compact_json.parse_break`. -/
def parse_break (_p : Parser) (raw : Json) : Except Exc Node := do
  return .breakStatement (← extract_base_props raw)

/-- `compact_json.parse_return`: a falsy `expression` yields `None`. -/
def parse_return (p : Parser) (raw : Json) : Except Exc Node := do
  let e ← jitem raw "expression"
  if truthy e then
    let ep ← p e
    return .returnStatement (some ep) (← extract_base_props raw)
  else
    return .returnStatement none (← extract_base_props raw)

/-- `compact_json.parse_throw`. -/
def parse_throw (_p : Parser) (raw : Json) : Except Exc Node := do
  return .throwStatement (← extract_base_props raw)

/-- `compact_json.parse_emit_statement`. -/
def parse_emit_statement (p : Parser) (raw : Json) : Except Exc Node := do
  let c ← p (← jitem raw "eventCall")
  passert c.isFunctionCall
  return .emitStatement c (← extract_base_props raw)

/-- `compact_json.parse_variable_declaration_statement`: falsy declaration
slots stay `None`; a falsy `initialValue` yields `None`. -/
def parse_variable_declaration_statement (p : Parser) (raw : Json) : Except Exc Node := do
  let ds ← jitem raw "declarations"
  let parsed ← parseAllOpt p Node.isVariableDeclaration (← liftPy (pyIter ds))
  let ivRaw ← jitem raw "initialValue"
  let iv ←
    if truthy ivRaw then do
      let v ← p ivRaw
      passert v.isExpression
      pure (some v)
    else pure (none : Option Node)
  return .variableDeclarationStatement parsed iv (← extract_base_props raw)

/-- `compact_json.parse_expression_statement`. -/
def parse_expression_statement (p : Parser) (raw : Json) : Except Exc Node := do
  let e ← p (← jitem raw "expression")
  passert e.isExpression
  return .expressionStatement e (← extract_base_props raw)

/-- `compact_json.parse_conditional`. -/
def parse_conditional (p : Parser) (raw : Json) : Except Exc Node := do
  let t ← p (← jitem raw "trueExpression")
  passert t.isExpression
  let f ← p (← jitem raw "falseExpression")
  passert f.isExpression
  let c ← p (← jitem raw "condition")
  passert c.isExpression
  return .conditional c t f (← extract_expr_props raw)

/-- `compact_json.parse_assignment`. -/
def parse_assignment (p : Parser) (raw : Json) : Except Exc Node := do
  let op ← jitem raw "operator"
  let l ← p (← jitem raw "leftHandSide")
  let r ← p (← jitem raw "rightHandSide")
  passert (match op with | .str _ => true | _ => false)
  passert l.isExpression
  passert r.isExpression
  return .assignment l op r (← extract_expr_props raw)

/-- `compact_json.parse_tuple_expression`: falsy components stay `None` and
are not capability-checked. -/
def parse_tuple_expression (p : Parser) (raw : Json) : Except Exc Node := do
  let ia ← jitem raw "isInlineArray"
  let cs ← jitem raw "components"
  let comps ← parseAllOpt p (fun _ => true) (← liftPy (pyIter cs))
  return .tupleExpression comps ia (← extract_expr_props raw)

/-- `compact_json.parse_unary_operation`. -/
def parse_unary_operation (p : Parser) (raw : Json) : Except Exc Node := do
  let e ← p (← jitem raw "subExpression")
  passert e.isExpression
  let op ← jitem raw "operator"
  let pre ← jitem raw "prefix"
  return .unaryOperation op e pre (← extract_expr_props raw)

/-- `compact_json.parse_binary_operation`. -/
def parse_binary_operation (p : Parser) (raw : Json) : Except Exc Node := do
  let l ← p (← jitem raw "leftExpression")
  let op ← jitem raw "operator"
  let r ← p (← jitem raw "rightExpression")
  passert l.isExpression
  passert (match op with | .str _ => true | _ => false)
  passert r.isExpression
  return .binaryOperation l op r (← extract_expr_props raw)

/-- `compact_json.parse_function_call`. -/
def parse_function_call (p : Parser) (raw : Json) : Except Exc Node := do
  let e ← p (← jitem raw "expression")
  passert e.isExpression
  let names ← jitem raw "names"
  let argsRaw ← jitem raw "arguments"
  let args ← parseAll p Node.isExpression (← liftPy (pyIter argsRaw))
  let kind ← jitem raw "kind"
  return .functionCall kind e names args (← extract_expr_props raw)

/-- `compact_json.parse_function_call_options`. -/
def parse_function_call_options (p : Parser) (raw : Json) : Except Exc Node := do
  let e ← p (← jitem raw "expression")
  passert e.isExpression
  let names ← jitem raw "names"
  passert (match names with | .arr _ => true | _ => false)
  passert (match names with
    | .arr xs => xs.all (fun x => match x with | .str _ => true | _ => false)
    | _ => true)
  let os ← jitem raw "options"
  let options ← parseAll p Node.isExpression (← liftPy (pyIter os))
  return .functionCallOptions e names options (← extract_expr_props raw)

/-- `compact_json.parse_new_expression`. -/
def parse_new_expression (p : Parser) (raw : Json) : Except Exc Node := do
  let tn ← p (← jitem raw "typeName")
  passert tn.isTypeName
  return .newExpression tn (← extract_expr_props raw)

/-- `compact_json.parse_member_access`. -/
def parse_member_access (p : Parser) (raw : Json) : Except Exc Node := do
  let e ← p (← jitem raw "expression")
  passert e.isExpression
  let mn ← jitem raw "memberName"
  return .memberAccess e mn (← extract_expr_props raw)

/-- `compact_json.parse_index_access`: a falsy `indexExpression` yields
`None`. -/
def parse_index_access (p : Parser) (raw : Json) : Except Exc Node := do
  let b ← p (← jitem raw "baseExpression")
  passert b.isExpression
  let ixRaw ← jitem raw "indexExpression"
  if truthy ixRaw then
    let ix ← p ixRaw
    passert ix.isExpression
    return .indexAccess b (some ix) (← extract_expr_props raw)
  else
    return .indexAccess b none (← extract_expr_props raw)

/-- `compact_json.parse_index_range_access`: a falsy `endExpression` yields
`None`. -/
def parse_index_range_access (p : Parser) (raw : Json) : Except Exc Node := do
  let b ← p (← jitem raw "baseExpression")
  passert b.isExpression
  let s ← p (← jitem raw "startExpression")
  passert s.isExpression
  let eRaw ← jitem raw "endExpression"
  if truthy eRaw then
    let e ← p eRaw
    passert e.isExpression
    return .indexRangeAccess b s (some e) (← extract_expr_props raw)
  else
    return .indexRangeAccess b s none (← extract_expr_props raw)

/-- `compact_json.parse_identifier`. -/
def parse_identifier (_p : Parser) (raw : Json) : Except Exc Node := do
  let nm ← jitem raw "name"
  passert (match nm with | .str _ => true | _ => false)
  return .identifier nm (← extract_expr_props raw)

/-- `compact_json.parse_elementary_type_name_expression`. -/
def parse_elementary_type_name_expression (p : Parser) (raw : Json) : Except Exc Node := do
  let tn ← p (← jitem raw "typeName")
  passert tn.isElementaryTypeName
  return .elementaryTypeNameExpression tn (← extract_expr_props raw)

/-- `compact_json.parse_literal`: `kind`, `value`, `hexValue` and
`subdenomination` are read from the top level. -/
def parse_literal (_p : Parser) (raw : Json) : Except Exc Node := do
  let k ← jitem raw "kind"
  let v ← jitem raw "value"
  let hv ← jitem raw "hexValue"
  let sd ← jitem raw "subdenomination"
  return .literal k v hv sd (← extract_expr_props raw)

/-- `compact_json.parse_unsupported`: raises the structured error carrying
the unrecognized tag and the raw node's field names. -/
def parse_unsupported (_p : Parser) (raw : Json) : Except Exc Node := do
  let nt ← jitem raw "nodeType"
  .error (.parsing (.unsupportedCompact nt raw.keys raw))

/-- The compact dispatch table (`compact_json.PARSERS`). -/
def PARSERS : List (String × (Parser → Json → Except Exc Node)) := [
  ("SourceUnit", parse_source_unit),
  ("PragmaDirective", parse_pragma_directive),
  ("ImportDirective", parse_import_directive),
  ("ContractDefinition", parse_contract_definition),
  ("InheritanceSpecifier", parse_inheritance_specifier),
  ("UsingForDirective", parse_using_for_directive),
  ("StructDefinition", parse_struct_definition),
  ("EnumDefinition", parse_enum_definition),
  ("EnumValue", parse_enum_value),
  ("ParameterList", parse_parameter_list),
  ("FunctionDefinition", parse_function_definition),
  ("VariableDeclaration", parse_variable_declaration),
  ("ModifierDefinition", parse_modifier_definition),
  ("ModifierInvocation", parse_modifier_invocation),
  ("EventDefinition", parse_event_definition),
  ("ElementaryTypeName", parse_elementary_type_name),
  ("UserDefinedTypeName", parse_user_defined_type_name),
  ("FunctionTypeName", parse_function_type_name),
  ("Mapping", parse_mapping),
  ("ArrayTypeName", parse_array_type_name),
  ("InlineAssembly", parse_inline_assembly),
  ("Block", parse_block),
  ("PlaceholderStatement", parse_placeholder_statement),
  ("IfStatement", parse_if_statement),
  ("TryCatchClause", parse_try_catch_clause),
  ("TryStatement", parse_try_statement),
  ("WhileStatement", parse_while_statement),
  ("DoWhileStatement", parse_do_while_statement),
  ("ForStatement", parse_for_statement),
  ("Continue", parse_continue),
  ("Break", parse_break),
  ("Return", parse_return),
  ("Throw", parse_throw),
  ("EmitStatement", parse_emit_statement),
  ("VariableDeclarationStatement", parse_variable_declaration_statement),
  ("ExpressionStatement", parse_expression_statement),
  ("Conditional", parse_conditional),
  ("Assignment", parse_assignment),
  ("TupleExpression", parse_tuple_expression),
  ("UnaryOperation", parse_unary_operation),
  ("BinaryOperation", parse_binary_operation),
  ("FunctionCall", parse_function_call),
  ("FunctionCallOptions", parse_function_call_options),
  ("NewExpression", parse_new_expression),
  ("MemberAccess", parse_member_access),
  ("IndexAccess", parse_index_access),
  ("IndexRangeAccess", parse_index_range_access),
  ("Identifier", parse_identifier),
  ("ElementaryTypeNameExpression", parse_elementary_type_name_expression),
  ("Literal", parse_literal)]

/-- `PARSERS.get(raw['nodeType'], parse_unsupported)`. -/
def dispatchOf (tag : Json) : Parser → Json → Except Exc Node :=
  match tag with
  | .str s =>
    match PARSERS.lookup s with
    | some f => f
    | none => parse_unsupported
  | t => if isHashable t then parse_unsupported else fun _ _ => throwPy (.typeError "unhashable type")

/-- `compact_json.parse`, fuel-indexed exactly like the legacy entry point:
re-raise a `ParsingError` unchanged, wrap any other exception into
`failedCompact` with the original exception as its cause. -/
def parse : Nat → Json → Except Exc Node
  | 0, _ => .error (.py .recursionError)
  | fuel+1, raw =>
    match pyItem raw "nodeType" with
    | .error e => .error (.py e)
    | .ok tag =>
      match dispatchOf tag (parse fuel) raw with
      | .ok n => .ok n
      | .error (.parsing e) => .error (.parsing e)
      | .error (.py e) => .error (.parsing (.failedCompact tag e raw.keys raw))

end Compact

/-!
Concrete raw nodes used as test vectors: they instantiate the general
theorems below and pin down the code_bug findings.
-/

/-- Legacy `ParameterList` raw node with no parameters. -/
def plRaw1 : Json := .obj [("name", .str "ParameterList"), ("id", .num 8),
  ("src", .str "8:1:0"), ("children", .arr [])]

/-- Second legacy `ParameterList` raw node (return parameters). -/
def plRaw2 : Json := .obj [("name", .str "ParameterList"), ("id", .num 9),
  ("src", .str "9:1:0"), ("children", .arr [])]

/-- Legacy `Block` raw node with no statements. -/
def blockRawL : Json := .obj [("name", .str "Block"), ("id", .num 10),
  ("src", .str "10:1:0"), ("children", .arr [])]

/-- Legacy `FunctionDefinition` raw node with neither `stateMutability` nor
`payable` among its attributes. -/
def fnDefRaw : Json := .obj [("name", .str "FunctionDefinition"), ("id", .num 7),
  ("src", .str "7:5:0"),
  ("attributes", .obj [("name", .str "f"), ("kind", .str "function")]),
  ("children", .arr [plRaw1, plRaw2, blockRawL])]

/-- Parsed form of `plRaw1`. -/
def plNode1 : Node := .parameterList [] ⟨.str "8:1:0", .num 8⟩

/-- Parsed form of `plRaw2`. -/
def plNode2 : Node := .parameterList [] ⟨.str "9:1:0", .num 9⟩

/-- Parsed form of `blockRawL`. -/
def blockNodeL : Node := .block [] ⟨.str "10:1:0", .num 10⟩

/-- Legacy `ElementaryTypeName` raw node for `uint256`. -/
def etnRawL : Json := .obj [("name", .str "ElementaryTypeName"), ("id", .num 3),
  ("src", .str "3:1:0"), ("attributes", .obj [("name", .str "uint256")])]

/-- Parsed form of `etnRawL`. -/
def etnNodeU : Node := .elementaryTypeName (.str "uint256") .null ⟨.str "3:1:0", .num 3⟩

/-- Legacy `VariableDeclaration` raw node declaring `x`. -/
def vdRawX : Json := .obj [("name", .str "VariableDeclaration"), ("id", .num 2),
  ("src", .str "2:1:0"),
  ("attributes", .obj [("name", .str "x"), ("type", .str "uint256")]),
  ("children", .arr [etnRawL])]

/-- Legacy `VariableDeclaration` raw node declaring `y`. -/
def vdRawY : Json := .obj [("name", .str "VariableDeclaration"), ("id", .num 4),
  ("src", .str "4:1:0"),
  ("attributes", .obj [("name", .str "y"), ("type", .str "uint256")]),
  ("children", .arr [etnRawL])]

/-- Parsed form of `vdRawX`. -/
def vdNodeX : Node := .variableDeclaration etnNodeU none (.str "uint256") (.bool false)
  ⟨⟨.str "2:1:0", .num 2⟩, .str "x", .str "", .str "public"⟩

/-- Parsed form of `vdRawY`. -/
def vdNodeY : Node := .variableDeclaration etnNodeU none (.str "uint256") (.bool false)
  ⟨⟨.str "4:1:0", .num 4⟩, .str "y", .str "", .str "public"⟩

/-- Legacy `Literal` raw node for the number 1. -/
def litRawL : Json := .obj [("name", .str "Literal"), ("id", .num 5), ("src", .str "5:1:0"),
  ("attributes", .obj [("token", .str "number"), ("value", .str "1"), ("hexvalue", .str "31"),
    ("subdenomination", .null), ("type", .str "int_const 1")])]

/-- Parsed form of `litRawL`. -/
def litNodeL : Node := .literal (.str "number") (.str "1") (.str "31") .null
  ⟨⟨.str "5:1:0", .num 5⟩, .str "int_const 1", .bool false, .bool false⟩

/-- Legacy `VariableDeclarationStatement` raw node whose children are
`[VariableDeclaration, VariableDeclaration, Literal]`. -/
def vdsRaw3 : Json := .obj [("name", .str "VariableDeclarationStatement"), ("id", .num 1),
  ("src", .str "1:9:0"), ("children", .arr [vdRawX, vdRawY, litRawL])]

/-- Legacy `VariableDeclarationStatement` raw node whose children are
`[VariableDeclaration, VariableDeclaration]`. -/
def vdsRaw2 : Json := .obj [("name", .str "VariableDeclarationStatement"), ("id", .num 6),
  ("src", .str "1:9:0"), ("children", .arr [vdRawX, vdRawY])]

/-- Compact raw node with an unrecognized kind tag. -/
def notARealKindRaw : Json := .obj [("nodeType", .str "NotARealKind"), ("id", .num 1),
  ("src", .str "0:0:0")]

/-- Compact `Literal` raw node missing every field but the tag. -/
def litMissingKindRaw : Json := .obj [("nodeType", .str "Literal")]

/-- Compact `Literal` raw node for the boolean `true`. -/
def cLitBoolRaw : Json := .obj [("nodeType", .str "Literal"), ("id", .num 2),
  ("src", .str "lb:0"), ("kind", .str "bool"), ("value", .str "true"),
  ("hexValue", .str "74727565"), ("subdenomination", .null),
  ("typeDescriptions", .obj [("typeString", .str "bool")])]

/-- Parsed form of `cLitBoolRaw`. -/
def cLitBoolNode : Node := .literal (.str "bool") (.str "true") (.str "74727565") .null
  ⟨⟨.str "lb:0", .num 2⟩, .str "bool", .bool false, .bool false⟩

/-- Compact `Block` raw node with no statements. -/
def cBlockRaw : Json := .obj [("nodeType", .str "Block"), ("id", .num 3), ("src", .str "b:0"),
  ("statements", .arr [])]

/-- Parsed form of `cBlockRaw`. -/
def cBlockNode : Node := .block [] ⟨.str "b:0", .num 3⟩

/-- Compact `ExpressionStatement` raw node wrapping a literal. -/
def cExprStmtRaw : Json := .obj [("nodeType", .str "ExpressionStatement"), ("id", .num 5),
  ("src", .str "e:0"), ("expression", cLitBoolRaw)]

/-- Compact `IfStatement` raw node with no `falseBody` key at all. -/
def cIfNoElseRaw : Json := .obj [("nodeType", .str "IfStatement"), ("id", .num 1),
  ("src", .str "i:0"), ("condition", cLitBoolRaw), ("trueBody", cBlockRaw)]

/-- Compact `ForStatement` raw node whose `initializationExpression` is
`null` while every other child is well-formed. -/
def cForNullRaw : Json := .obj [("nodeType", .str "ForStatement"), ("id", .num 4),
  ("src", .str "f:0"), ("initializationExpression", .null), ("condition", cLitBoolRaw),
  ("loopExpression", cExprStmtRaw), ("body", cBlockRaw)]

/-- Legacy `Throw` raw node carrying an id and a source range. -/
def throwRawL : Json := .obj [("name", .str "Throw"), ("id", .num 5), ("src", .str "1:2:0")]

/-- Compact `ElementaryTypeName` raw node for `uint256`. -/
def cEtnUintRaw : Json := .obj [("nodeType", .str "ElementaryTypeName"), ("id", .num 3),
  ("src", .str "t:0"), ("name", .str "uint256")]

/-- Compact `VariableDeclaration` raw node, a well-formed struct member. -/
def cVdMemberRaw : Json := .obj [("nodeType", .str "VariableDeclaration"), ("id", .num 2),
  ("src", .str "m:0"), ("name", .str "x"), ("typeName", cEtnUintRaw), ("value", .null),
  ("typeDescriptions", .obj [("typeString", .str "uint256")]), ("constant", .bool false)]

/-- Compact `StructDefinition` raw node with exactly one well-formed member. -/
def cStructRaw : Json := .obj [("nodeType", .str "StructDefinition"), ("id", .num 1),
  ("src", .str "s:0"), ("name", .str "S"), ("members", .arr [cVdMemberRaw])]

/-- Legacy `ContractDefinition` raw node with `isLibrary: true` and no
`contractKind` or `fullyImplemented` attribute. -/
def libContractRaw : Json := .obj [("name", .str "ContractDefinition"), ("id", .num 1),
  ("src", .str "c:0"),
  ("attributes", .obj [("name", .str "L"), ("isLibrary", .bool true),
    ("linearizedBaseContracts", .arr [.num 1])]),
  ("children", .arr [])]

/-- Compact `Literal` raw node for the number 42 with no top-level
`isConstant`/`isPure`. -/
def cLit42Raw : Json := .obj [("nodeType", .str "Literal"), ("id", .num 5),
  ("src", .str "0:1:0"), ("kind", .str "number"), ("value", .str "42"),
  ("hexValue", .str "3432"), ("subdenomination", .null),
  ("typeDescriptions", .obj [("typeString", .str "int_const 42")])]

/-- The same compact literal with a top-level `isConstant: true`. -/
def cLit42ConstRaw : Json := .obj [("nodeType", .str "Literal"), ("id", .num 5),
  ("src", .str "0:1:0"), ("kind", .str "number"), ("value", .str "42"),
  ("hexValue", .str "3432"), ("subdenomination", .null),
  ("typeDescriptions", .obj [("typeString", .str "int_const 42")]),
  ("isConstant", .bool true)]

/-- Legacy `Literal` raw node encoding the same number 42 (the spec's
end-to-end example). -/
def lLit42Raw : Json := .obj [("name", .str "Literal"), ("id", .num 9), ("src", .str "10:2:0"),
  ("attributes", .obj [("token", .str "number"), ("value", .str "42"), ("hexvalue", .str "3432"),
    ("subdenomination", .null), ("type", .str "int_const 42")])]

/-- Legacy `ElementaryTypeName` raw node for `address` without a
`stateMutability` attribute. -/
def etnAddrRaw : Json := .obj [("name", .str "ElementaryTypeName"), ("id", .num 2),
  ("src", .str "a:0"), ("attributes", .obj [("name", .str "address")])]

/-- Stated from the spec's cross-format claim: the observation of a parsed
`Literal` a downstream consumer can make — kind, value, hexValue,
subdenomination, typeString, isConstant and isPure, with id and source
range excluded. -/
def literalObservation : Node → Option (Json × Json × Json × Json × Json × Json × Json)
  | .literal k v hv sd ep => some (k, v, hv, sd, ep.type_str, ep.constant, ep.pure)
  | _ => none

/-- Reduction of a successful monadic step, used to push hypothesis
equations through the parsers' do-blocks. -/
theorem ok_bind {α β : Type} (a : α) (f : α → Except Exc β) :
    (Except.ok a >>= f) = f a := rfl

/-- C1: for every legacy `FunctionDefinition` raw node, the resolved
mutability prefers an explicit `stateMutability` attribute verbatim; else a
boolean `payable` attribute maps to "payable"/"nonpayable"; else the result
defaults to "payable". -/
theorem legacy_function_mutability_chain (f : Nat)
    (raw attrs ch mid kindv c0 c1 cl : Json) (n : Int) (mids : List Json)
    (params rets body : Node) (mods : List Node) (decl : DeclProps)
    (hname : pyItem raw "name" = .ok (.str "FunctionDefinition"))
    (hattrs : pyItem raw "attributes" = .ok attrs)
    (hkc : pyContains attrs "kind" = .ok true)
    (hkv : pyItem attrs "kind" = .ok kindv)
    (hch : pyItem raw "children" = .ok ch)
    (hlen : pyLen ch = .ok n) (hn : n ≥ 3)
    (h0 : pyIndex ch 0 = .ok c0) (hp0 : Legacy.parse f c0 = .ok params)
    (hplc : params.isParameterList = true)
    (h1 : pyIndex ch 1 = .ok c1) (hp1 : Legacy.parse f c1 = .ok rets)
    (hrlc : rets.isParameterList = true)
    (hmid : pySlice ch (some 2) (some (-1)) = .ok mid)
    (hmiter : pyIter mid = .ok mids)
    (hmods : parseAll (Legacy.parse f) Node.isModifierInvocation mids = .ok mods)
    (hlast : pyIndex ch (-1) = .ok cl) (hpb : Legacy.parse f cl = .ok body)
    (hbl : body.isBlock = true)
    (hdecl : Legacy.extract_decl_props raw = .ok decl) :
    (∀ m, pyContains attrs "stateMutability" = .ok true →
      pyItem attrs "stateMutability" = .ok m →
      Legacy.parse (f+1) raw =
        .ok (.functionDefinition m kindv mods body params (some rets) decl)) ∧
    (∀ b, pyContains attrs "stateMutability" = .ok false →
      pyContains attrs "payable" = .ok true →
      pyItem attrs "payable" = .ok (.bool b) →
      Legacy.parse (f+1) raw =
        .ok (.functionDefinition (.str (if b then "payable" else "nonpayable")) kindv mods body
          params (some rets) decl)) ∧
    (pyContains attrs "stateMutability" = .ok false →
      pyContains attrs "payable" = .ok false →
      Legacy.parse (f+1) raw =
        .ok (.functionDefinition (.str "payable") kindv mods body params (some rets) decl)) := by
  refine ⟨fun m hsm hsv => ?_, fun b hsm hpc hpv => ?_, fun hsm hpc => ?_⟩
  · simp [Legacy.parse, Legacy.dispatchOf, Legacy.PARSERS, Legacy.parse_function_definition,
      jitem, jcontains, liftPy, passert, truthy, hname, hattrs, hkc, hkv, hch, hlen, hn, h0, hp0,
      hplc, h1, hp1, hrlc, hmid, hmiter, hmods, hlast, hpb, hbl, hdecl, ok_bind, List.lookup,
      hsm, hsv]
  · cases b <;>
      simp [Legacy.parse, Legacy.dispatchOf, Legacy.PARSERS, Legacy.parse_function_definition,
        jitem, jcontains, liftPy, passert, truthy, hname, hattrs, hkc, hkv, hch, hlen, hn, h0,
        hp0, hplc, h1, hp1, hrlc, hmid, hmiter, hmods, hlast, hpb, hbl, hdecl, ok_bind,
        List.lookup, hsm, hpc, hpv]
  · simp [Legacy.parse, Legacy.dispatchOf, Legacy.PARSERS, Legacy.parse_function_definition,
      jitem, jcontains, liftPy, passert, truthy, hname, hattrs, hkc, hkv, hch, hlen, hn, h0, hp0,
      hplc, h1, hp1, hrlc, hmid, hmiter, hmods, hlast, hpb, hbl, hdecl, ok_bind, List.lookup,
      hsm, hpc]

/-- C1 witness: a legacy function with neither `stateMutability` nor
`payable` resolves to mutability "payable". -/
theorem legacy_function_mutability_chain_witness :
    Legacy.parse 2 fnDefRaw = .ok (.functionDefinition (.str "payable") (.str "function") []
      blockNodeL plNode1 (some plNode2)
      ⟨⟨.str "7:5:0", .num 7⟩, .str "f", .str "", .str "public"⟩) :=
  (legacy_function_mutability_chain 1 fnDefRaw
    (.obj [("name", .str "f"), ("kind", .str "function")])
    (.arr [plRaw1, plRaw2, blockRawL]) (.arr []) (.str "function")
    plRaw1 plRaw2 blockRawL 3 [] plNode1 plNode2 blockNodeL []
    ⟨⟨.str "7:5:0", .num 7⟩, .str "f", .str "", .str "public"⟩
    rfl rfl rfl rfl rfl rfl (by decide) rfl rfl rfl rfl rfl rfl rfl rfl rfl rfl rfl rfl
    rfl).2.2 rfl rfl

/-- C2: a legacy `VariableDeclarationStatement` parses every child but the
last as a declared variable; the parsed last child joins the variable list
when it is itself a `VariableDeclaration` (no initializer), otherwise it
becomes the initializer — in particular `[VariableDeclaration,
VariableDeclaration, Literal]` yields two variables plus the literal
initializer, and `[VariableDeclaration, VariableDeclaration]` yields two
variables and no initializer. -/
theorem legacy_vardecl_statement_trailing_disambiguation :
    (∀ (f : Nat) (raw ch front lastC : Json) (cs : List Json) (vds : List Node)
      (lastN : Node) (base : BaseProps),
      pyItem raw "name" = .ok (.str "VariableDeclarationStatement") →
      pyItem raw "children" = .ok ch →
      pySlice ch none (some (-1)) = .ok front →
      pyIter front = .ok cs →
      parseAll (Legacy.parse f) Node.isVariableDeclaration cs = .ok vds →
      pyIndex ch (-1) = .ok lastC →
      Legacy.parse f lastC = .ok lastN →
      Legacy.extract_base_props raw = .ok base →
      Legacy.parse (f+1) raw = .ok (.variableDeclarationStatement
        (if lastN.isVariableDeclaration then (vds ++ [lastN]).map some else vds.map some)
        (if lastN.isVariableDeclaration then none else some lastN) base)) ∧
    Legacy.parse 3 vdsRaw3 = .ok (.variableDeclarationStatement [some vdNodeX, some vdNodeY]
      (some litNodeL) ⟨.str "1:9:0", .num 1⟩) ∧
    Legacy.parse 3 vdsRaw2 = .ok (.variableDeclarationStatement [some vdNodeX, some vdNodeY]
      none ⟨.str "1:9:0", .num 6⟩) := by
  refine ⟨?_, rfl, rfl⟩
  intro f raw ch front lastC cs vds lastN base hname hch hfront hiter hvds hlast hplast hbase
  cases hlv : lastN.isVariableDeclaration <;>
    simp [Legacy.parse, Legacy.dispatchOf, Legacy.PARSERS,
      Legacy.parse_variable_definition_statement, jitem, liftPy, hname, hch, hfront, hiter,
      hvds, hlast, hplast, hbase, hlv, ok_bind, List.lookup]

/-- C2 witness: the general disambiguation rule applied to the concrete
three-child statement. -/
theorem legacy_vardecl_statement_trailing_disambiguation_witness :
    Legacy.parse 4 vdsRaw3 = .ok (.variableDeclarationStatement [some vdNodeX, some vdNodeY]
      (some litNodeL) ⟨.str "1:9:0", .num 1⟩) :=
  legacy_vardecl_statement_trailing_disambiguation.1 3 vdsRaw3
    (.arr [vdRawX, vdRawY, litRawL]) (.arr [vdRawX, vdRawY]) litRawL [vdRawX, vdRawY]
    [vdNodeX, vdNodeY] litNodeL ⟨.str "1:9:0", .num 1⟩ rfl rfl rfl rfl rfl rfl rfl rfl

/-- C3: a raw node whose kind tag is not a key of its format's dispatch
table fails with the structured error carrying the format name (in its
message), the exact tag string, the raw node's field names, and — legacy
only — the `name` tags of its immediate children. -/
theorem unsupported_kind_structured_error :
    (∀ (f : Nat) (raw : Json) (s : String),
      pyItem raw "nodeType" = .ok (.str s) →
      Compact.PARSERS.lookup s = none →
      Compact.parse (f+1) raw =
        .error (.parsing (.unsupportedCompact (.str s) raw.keys raw))) ∧
    (∀ (f : Nat) (raw ch : Json) (s : String) (cs ns : List Json),
      pyItem raw "name" = .ok (.str s) →
      Legacy.PARSERS.lookup s = none →
      pyContains raw "children" = .ok true →
      pyItem raw "children" = .ok ch →
      pyIter ch = .ok cs →
      childNameList cs = .ok ns →
      Legacy.parse (f+1) raw =
        .error (.parsing (.unsupportedLegacy (.str s) raw.keys ns raw))) ∧
    (∀ (f : Nat) (raw : Json) (s : String),
      pyItem raw "name" = .ok (.str s) →
      Legacy.PARSERS.lookup s = none →
      pyContains raw "children" = .ok false →
      Legacy.parse (f+1) raw =
        .error (.parsing (.unsupportedLegacy (.str s) raw.keys [] raw))) := by
  refine ⟨fun f raw s h1 h2 => ?_, fun f raw ch s cs ns h1 h2 h3 h4 h5 h6 => ?_,
    fun f raw s h1 h2 hc => ?_⟩
  · simp [Compact.parse, Compact.dispatchOf, Compact.parse_unsupported, jitem, jcontains,
      liftPy, h1, h2, ok_bind]
  · simp [Legacy.parse, Legacy.dispatchOf, Legacy.parse_unsupported, jitem, jcontains,
      liftPy, h1, h2, h3, h4, h5, h6, ok_bind]
  · simp [Legacy.parse, Legacy.dispatchOf, Legacy.parse_unsupported, jitem, jcontains,
      liftPy, h1, h2, hc, ok_bind]

/-- C3 witness: a compact raw node tagged `NotARealKind` fails with the
unsupported-kind error carrying that exact tag. -/
theorem unsupported_kind_structured_error_witness :
    Compact.parse 1 notARealKindRaw = .error (.parsing (.unsupportedCompact
      (.str "NotARealKind") ["nodeType", "id", "src"] notARealKindRaw)) :=
  unsupported_kind_structured_error.1 0 notARealKindRaw "NotARealKind" rfl rfl

/-- C4: at each format's dispatch boundary, an extraction-function failure
that is not already a `ParsingError` is wrapped into exactly one structured
error carrying the original exception as its cause, while a `ParsingError`
raised below is re-raised unchanged — so a deep failure is wrapped exactly
once, at the innermost dispatch boundary where it occurred. -/
theorem dispatch_error_wrapping_policy :
    (∀ (f : Nat) (raw tag : Json) (e : PyErr),
      pyItem raw "nodeType" = .ok tag →
      Compact.dispatchOf tag (Compact.parse f) raw = .error (.py e) →
      Compact.parse (f+1) raw =
        .error (.parsing (.failedCompact tag e raw.keys raw))) ∧
    (∀ (f : Nat) (raw tag : Json) (pe : ParsingError),
      pyItem raw "nodeType" = .ok tag →
      Compact.dispatchOf tag (Compact.parse f) raw = .error (.parsing pe) →
      Compact.parse (f+1) raw = .error (.parsing pe)) ∧
    (∀ (f : Nat) (raw tag : Json) (e : PyErr),
      pyItem raw "name" = .ok tag →
      Legacy.dispatchOf tag (Legacy.parse f) raw = .error (.py e) →
      Legacy.parse (f+1) raw =
        .error (.parsing (.failedLegacy tag e raw.keys raw))) ∧
    (∀ (f : Nat) (raw tag : Json) (pe : ParsingError),
      pyItem raw "name" = .ok tag →
      Legacy.dispatchOf tag (Legacy.parse f) raw = .error (.parsing pe) →
      Legacy.parse (f+1) raw = .error (.parsing pe)) := by
  refine ⟨fun f raw tag e h1 h2 => ?_, fun f raw tag pe h1 h2 => ?_,
    fun f raw tag e h1 h2 => ?_, fun f raw tag pe h1 h2 => ?_⟩ <;>
    simp [Compact.parse, Legacy.parse, h1, h2]

/-- C4 witness: a compact `Literal` raw node missing its `kind` field fails
inside the extraction function with a `KeyError`, which the dispatch
boundary wraps once into the structured error with that `KeyError` as
cause. -/
theorem dispatch_error_wrapping_policy_witness :
    Compact.parse 1 litMissingKindRaw = .error (.parsing (.failedCompact (.str "Literal")
      (.keyError (.str "kind")) ["nodeType"] litMissingKindRaw)) :=
  dispatch_error_wrapping_policy.1 0 litMissingKindRaw (.str "Literal")
    (.keyError (.str "kind")) rfl rfl

/-- Reduction of a failing monadic step. -/
theorem error_bind {α β : Type} (e : Exc) (f : α → Except Exc β) :
    ((Except.error e : Except Exc α) >>= f) = .error e := rfl

/-- Recursively parsing a `null` child raises a `TypeError`: the dispatch
tries to read `null['nodeType']`, and rebuilding the wrapper re-reads the
same field, so the `TypeError` escapes unwrapped. -/
theorem compact_parse_null (f : Nat) :
    Compact.parse (f+1) .null =
      .error (.py (.typeError "NoneType object is not subscriptable")) := by
  simp [Compact.parse, pyItem]

/-- One dispatch step of the compact parser: a Python-level failure of the
selected extraction function is wrapped into `failedCompact`. -/
theorem compact_wrap_step (f : Nat) (raw tag : Json) (e : PyErr)
    (h1 : pyItem raw "nodeType" = .ok tag)
    (h2 : Compact.dispatchOf tag (Compact.parse f) raw = .error (.py e)) :
    Compact.parse (f+1) raw = .error (.parsing (.failedCompact tag e raw.keys raw)) := by
  simp [Compact.parse, h1, h2]

/-- C5 counterexample: a compact `ForStatement` whose
`initializationExpression` is `null` (all other children well-formed) does
not parse to a `ForStatement` with a null initializer — the parser passes
the `null` to the recursive parse, which raises a `TypeError` that the
dispatch boundary wraps into the structured error. -/
theorem compact_for_null_initializer_fails :
    Compact.parse 3 cForNullRaw = .error (.parsing (.failedCompact (.str "ForStatement")
      (.typeError "NoneType object is not subscriptable")
      ["nodeType", "id", "src", "initializationExpression", "condition", "loopExpression",
        "body"] cForNullRaw)) := rfl

/-- C5 (amended): a compact `IfStatement` with `falseBody` omitted or null
parses with a null false-branch, as claimed; a compact `ForStatement`,
however, requires `initializationExpression` — a null value or a failing
field read (the omitted-key case) makes the parse fail with the structured
error instead of passing `null` through. -/
theorem optional_field_passthrough_amended :
    (∀ (f : Nat) (raw cond tb : Json) (condN tbN : Node) (base : BaseProps),
      pyItem raw "nodeType" = .ok (.str "IfStatement") →
      pyItem raw "condition" = .ok cond →
      Compact.parse f cond = .ok condN →
      condN.isExpression = true →
      pyItem raw "trueBody" = .ok tb →
      Compact.parse f tb = .ok tbN →
      tbN.isStatement = true →
      Compact.extract_base_props raw = .ok base →
      (pyContains raw "falseBody" = .ok false →
        Compact.parse (f+1) raw = .ok (.ifStatement condN tbN none base)) ∧
      (pyContains raw "falseBody" = .ok true →
        pyItem raw "falseBody" = .ok .null →
        Compact.parse (f+1) raw = .ok (.ifStatement condN tbN none base))) ∧
    (∀ (f : Nat) (raw : Json),
      pyItem raw "nodeType" = .ok (.str "ForStatement") →
      pyItem raw "initializationExpression" = .ok .null →
      Compact.parse (f+2) raw = .error (.parsing (.failedCompact (.str "ForStatement")
        (.typeError "NoneType object is not subscriptable") raw.keys raw))) ∧
    (∀ (f : Nat) (raw : Json) (e : PyErr),
      pyItem raw "nodeType" = .ok (.str "ForStatement") →
      pyItem raw "initializationExpression" = .error e →
      Compact.parse (f+1) raw = .error (.parsing (.failedCompact (.str "ForStatement")
        e raw.keys raw))) := by
  refine ⟨fun f raw cond tb condN tbN base h1 h2 h3 h4 h5 h6 h7 h8 =>
      ⟨fun hno => ?_, fun hyes hnull => ?_⟩,
    fun f raw h1 h2 => ?_, fun f raw e h1 h2 => ?_⟩
  · simp [Compact.parse, Compact.dispatchOf, Compact.PARSERS, Compact.parse_if_statement,
      jitem, jcontains, liftPy, passert, h1, h2, h3, h4, h5, h6, h7, h8, hno, ok_bind,
      List.lookup]
  · simp [Compact.parse, Compact.dispatchOf, Compact.PARSERS, Compact.parse_if_statement,
      jitem, jcontains, liftPy, passert, truthy, h1, h2, h3, h4, h5, h6, h7, h8, hyes, hnull,
      ok_bind, List.lookup]
  · refine compact_wrap_step (f+1) raw (.str "ForStatement")
      (.typeError "NoneType object is not subscriptable") h1 ?_
    simp [Compact.dispatchOf, Compact.PARSERS, Compact.parse_for_statement, jitem, liftPy,
      h2, compact_parse_null, ok_bind, error_bind, List.lookup]
  · refine compact_wrap_step f raw (.str "ForStatement") e h1 ?_
    simp [Compact.dispatchOf, Compact.PARSERS, Compact.parse_for_statement, jitem, liftPy,
      h2, ok_bind, error_bind, List.lookup]

/-- C5 witness: an `IfStatement` with no `falseBody` key parses with a null
false-branch. -/
theorem optional_field_passthrough_amended_witness :
    Compact.parse 2 cIfNoElseRaw = .ok (.ifStatement cLitBoolNode cBlockNode none
      ⟨.str "i:0", .num 1⟩) :=
  (optional_field_passthrough_amended.1 1 cIfNoElseRaw cLitBoolRaw cBlockRaw cLitBoolNode
    cBlockNode ⟨.str "i:0", .num 1⟩ rfl rfl rfl rfl rfl rfl rfl rfl).1 rfl

/-- C6: the legacy parser's `parse_throw` constructs `Throw(raw['src'])`
with no id, so a legacy `Throw` raw node never receives the raw node's id —
with the node constructor of §3 (id and source range both required, exactly
what the compact `parse_throw` passes) the construction raises a
`TypeError` and the parse of the whole node fails, contradicting the claim
that every legacy-parsed non-root node carries the raw id. -/
theorem legacy_throw_loses_raw_id :
    Legacy.parse 1 throwRawL = .error (.parsing (.failedLegacy (.str "Throw")
      (.typeError "Throw missing required positional argument id") ["name", "id", "src"]
      throwRawL)) := rfl

/-- C7: the compact `parse_struct_definition` parses and type-checks every
raw member but never appends it to the accumulator, so a `StructDefinition`
with one well-formed `VariableDeclaration` member still produces a node
whose member list is empty — contradicting the claim of one parsed member
per raw member. -/
theorem compact_struct_definition_drops_members :
    Compact.parse 3 cStructRaw = .ok (.structDefinition []
      ⟨⟨.str "s:0", .num 1⟩, .str "S", .str "", .null⟩) := rfl

/-- C8: for every legacy `ContractDefinition` raw node, the resolved
contract kind prefers an explicit `contractKind` attribute verbatim;
otherwise `isLibrary: true` gives "library" with no look at
`fullyImplemented`, `isLibrary: false` with `fullyImplemented: true` gives
"contract", and `isLibrary: false` with `fullyImplemented: false` gives
"interface". -/
theorem legacy_contract_kind_chain (f : Nat) (raw attrs lin ch : Json) (cs : List Json)
    (nodes : List Node) (decl : DeclProps)
    (hname : pyItem raw "name" = .ok (.str "ContractDefinition"))
    (hattrs : pyItem raw "attributes" = .ok attrs)
    (hlin : pyItem attrs "linearizedBaseContracts" = .ok lin)
    (hchc : pyContains raw "children" = .ok true)
    (hch : pyItem raw "children" = .ok ch)
    (hiter : pyIter ch = .ok cs)
    (hnodes : parseEach (Legacy.parse f) cs = .ok nodes)
    (hdecl : Legacy.extract_decl_props raw = .ok decl) :
    (∀ kv, pyContains attrs "contractKind" = .ok true →
      pyItem attrs "contractKind" = .ok kv →
      Legacy.parse (f+1) raw = .ok (.contractDefinition kv lin nodes decl)) ∧
    (pyContains attrs "contractKind" = .ok false →
      pyItem attrs "isLibrary" = .ok (.bool true) →
      Legacy.parse (f+1) raw = .ok (.contractDefinition (.str "library") lin nodes decl)) ∧
    (pyContains attrs "contractKind" = .ok false →
      pyItem attrs "isLibrary" = .ok (.bool false) →
      pyItem attrs "fullyImplemented" = .ok (.bool true) →
      Legacy.parse (f+1) raw = .ok (.contractDefinition (.str "contract") lin nodes decl)) ∧
    (pyContains attrs "contractKind" = .ok false →
      pyItem attrs "isLibrary" = .ok (.bool false) →
      pyItem attrs "fullyImplemented" = .ok (.bool false) →
      Legacy.parse (f+1) raw = .ok (.contractDefinition (.str "interface") lin nodes decl)) := by
  refine ⟨fun kv hkc hkv => ?_, fun hkc hlib => ?_, fun hkc hlib hfi => ?_,
    fun hkc hlib hfi => ?_⟩
  · simp [Legacy.parse, Legacy.dispatchOf, Legacy.PARSERS, Legacy.parse_contract_definition,
      jitem, jcontains, liftPy, truthy, hname, hattrs, hlin, hchc, hch, hiter, hnodes, hdecl,
      hkc, hkv, ok_bind, List.lookup]
  · simp [Legacy.parse, Legacy.dispatchOf, Legacy.PARSERS, Legacy.parse_contract_definition,
      jitem, jcontains, liftPy, truthy, hname, hattrs, hlin, hchc, hch, hiter, hnodes, hdecl,
      hkc, hlib, ok_bind, List.lookup]
  · simp [Legacy.parse, Legacy.dispatchOf, Legacy.PARSERS, Legacy.parse_contract_definition,
      jitem, jcontains, liftPy, truthy, hname, hattrs, hlin, hchc, hch, hiter, hnodes, hdecl,
      hkc, hlib, hfi, ok_bind, List.lookup]
  · simp [Legacy.parse, Legacy.dispatchOf, Legacy.PARSERS, Legacy.parse_contract_definition,
      jitem, jcontains, liftPy, truthy, hname, hattrs, hlin, hchc, hch, hiter, hnodes, hdecl,
      hkc, hlib, hfi, ok_bind, List.lookup]

/-- C8 witness: a legacy contract with `isLibrary: true` and no
`contractKind` (and no `fullyImplemented` at all) resolves to kind
"library". -/
theorem legacy_contract_kind_chain_witness :
    Legacy.parse 1 libContractRaw = .ok (.contractDefinition (.str "library")
      (.arr [.num 1]) [] ⟨⟨.str "c:0", .num 1⟩, .str "L", .str "", .str "public"⟩) :=
  (legacy_contract_kind_chain 0 libContractRaw
    (.obj [("name", .str "L"), ("isLibrary", .bool true),
      ("linearizedBaseContracts", .arr [.num 1])])
    (.arr [.num 1]) (.arr []) [] []
    ⟨⟨.str "c:0", .num 1⟩, .str "L", .str "", .str "public"⟩
    rfl rfl rfl rfl rfl rfl rfl rfl).2.1 rfl rfl

/-- C9 counterexample: a compact Literal carrying a top-level
`isConstant: true` and a legacy Literal with identical kind, value,
hexvalue, subdenomination and type string parse to Literal nodes that
differ in `isConstant` — the legacy parser reads `isConstant` only from the
raw top level (where the legacy format never puts it), so the claim's
matching condition is met while the outputs differ beyond id and source
range. -/
theorem literal_cross_format_isconstant_cex :
    Compact.parse 1 cLit42ConstRaw = .ok (.literal (.str "number") (.str "42") (.str "3432")
      .null ⟨⟨.str "0:1:0", .num 5⟩, .str "int_const 42", .bool true, .bool false⟩) ∧
    Legacy.parse 1 lLit42Raw = .ok (.literal (.str "number") (.str "42") (.str "3432") .null
      ⟨⟨.str "10:2:0", .num 9⟩, .str "int_const 42", .bool false, .bool false⟩) ∧
    literalObservation (.literal (.str "number") (.str "42") (.str "3432") .null
      ⟨⟨.str "0:1:0", .num 5⟩, .str "int_const 42", .bool true, .bool false⟩) ≠
    literalObservation (.literal (.str "number") (.str "42") (.str "3432") .null
      ⟨⟨.str "10:2:0", .num 9⟩, .str "int_const 42", .bool false, .bool false⟩) :=
  ⟨rfl, rfl, by simp [literalObservation]⟩

/-- C9 (amended): for every pair of a compact and a legacy Literal raw node
encoding the same literal (compact kind/value/hexValue/subdenomination/
typeDescriptions.typeString equal to legacy token/value/hexvalue/
subdenomination/type) whose expression headers resolve identically — in
particular the top-level `isConstant`/`isPure` reads agree, both defaulting
to false — the two parsers produce Literal nodes identical in kind, value,
hexValue, subdenomination, typeString, isConstant and isPure, differing at
most in id and source range. -/
theorem literal_cross_format_equivalence_amended (f : Nat)
    (craw lraw attrs k v hv sd ts ic ip : Json) (cbase lbase : BaseProps)
    (hcn : pyItem craw "nodeType" = .ok (.str "Literal"))
    (hck : pyItem craw "kind" = .ok k)
    (hcv : pyItem craw "value" = .ok v)
    (hch : pyItem craw "hexValue" = .ok hv)
    (hcs : pyItem craw "subdenomination" = .ok sd)
    (hce : Compact.extract_expr_props craw = .ok ⟨cbase, ts, ic, ip⟩)
    (hln : pyItem lraw "name" = .ok (.str "Literal"))
    (hla : pyItem lraw "attributes" = .ok attrs)
    (hlt : pyItem attrs "token" = .ok k)
    (hlv : pyItem attrs "value" = .ok v)
    (hlh : pyItem attrs "hexvalue" = .ok hv)
    (hls : pyItem attrs "subdenomination" = .ok sd)
    (hle : Legacy.extract_expr_props lraw = .ok ⟨lbase, ts, ic, ip⟩) :
    Compact.parse (f+1) craw = .ok (.literal k v hv sd ⟨cbase, ts, ic, ip⟩) ∧
    Legacy.parse (f+1) lraw = .ok (.literal k v hv sd ⟨lbase, ts, ic, ip⟩) ∧
    literalObservation (.literal k v hv sd ⟨cbase, ts, ic, ip⟩) =
      literalObservation (.literal k v hv sd ⟨lbase, ts, ic, ip⟩) := by
  refine ⟨?_, ?_, rfl⟩
  · simp [Compact.parse, Compact.dispatchOf, Compact.PARSERS, Compact.parse_literal,
      jitem, liftPy, hcn, hck, hcv, hch, hcs, hce, ok_bind, List.lookup]
  · simp [Legacy.parse, Legacy.dispatchOf, Legacy.PARSERS, Legacy.parse_literal,
      jitem, liftPy, hln, hla, hlt, hlv, hlh, hls, hle, ok_bind, List.lookup]

/-- C9 witness: the spec's end-to-end example pair — the compact number-42
literal (no top-level isConstant/isPure) and the legacy number-42 literal —
parse to observationally identical Literal nodes. -/
theorem literal_cross_format_equivalence_amended_witness :
    Compact.parse 1 cLit42Raw = .ok (.literal (.str "number") (.str "42") (.str "3432")
      .null ⟨⟨.str "0:1:0", .num 5⟩, .str "int_const 42", .bool false, .bool false⟩) ∧
    Legacy.parse 1 lLit42Raw = .ok (.literal (.str "number") (.str "42") (.str "3432") .null
      ⟨⟨.str "10:2:0", .num 9⟩, .str "int_const 42", .bool false, .bool false⟩) ∧
    literalObservation (.literal (.str "number") (.str "42") (.str "3432") .null
      ⟨⟨.str "0:1:0", .num 5⟩, .str "int_const 42", .bool false, .bool false⟩) =
    literalObservation (.literal (.str "number") (.str "42") (.str "3432") .null
      ⟨⟨.str "10:2:0", .num 9⟩, .str "int_const 42", .bool false, .bool false⟩) :=
  literal_cross_format_equivalence_amended 0 cLit42Raw lLit42Raw
    (.obj [("token", .str "number"), ("value", .str "42"), ("hexvalue", .str "3432"),
      ("subdenomination", .null), ("type", .str "int_const 42")])
    (.str "number") (.str "42") (.str "3432") .null (.str "int_const 42") (.bool false)
    (.bool false) ⟨.str "0:1:0", .num 5⟩ ⟨.str "10:2:0", .num 9⟩
    rfl rfl rfl rfl rfl rfl rfl rfl rfl rfl rfl rfl rfl

/-- C10: for every legacy `ElementaryTypeName` raw node, the parsed
mutability is the `stateMutability` attribute verbatim when present;
otherwise it is "payable" exactly when the `name` attribute equals
"address" and `None` otherwise. -/
theorem legacy_elementary_type_mutability_chain (f : Nat) (raw attrs nm : Json)
    (base : BaseProps)
    (hname : pyItem raw "name" = .ok (.str "ElementaryTypeName"))
    (hattrs : pyItem raw "attributes" = .ok attrs)
    (hnm : pyItem attrs "name" = .ok nm)
    (hbase : Legacy.extract_base_props raw = .ok base) :
    (pyContains attrs "stateMutability" = .ok false →
      Legacy.parse (f+1) raw = .ok (.elementaryTypeName nm
        (if jsonBeq nm (.str "address") then .str "payable" else .null) base)) ∧
    (∀ sm, pyContains attrs "stateMutability" = .ok true →
      pyItem attrs "stateMutability" = .ok sm →
      Legacy.parse (f+1) raw = .ok (.elementaryTypeName nm sm base)) := by
  constructor
  · intro hno
    simp [Legacy.parse, Legacy.dispatchOf, Legacy.PARSERS, Legacy.parse_elementary_type_name,
      jitem, jcontains, liftPy, hname, hattrs, hnm, hbase, hno, ok_bind, List.lookup]
  · intro sm hyes hsm
    simp [Legacy.parse, Legacy.dispatchOf, Legacy.PARSERS, Legacy.parse_elementary_type_name,
      jitem, jcontains, liftPy, hname, hattrs, hnm, hbase, hyes, hsm, ok_bind, List.lookup]

/-- C10 witness: a legacy `address` type name without `stateMutability`
resolves to mutability "payable". -/
theorem legacy_elementary_type_mutability_chain_witness :
    Legacy.parse 1 etnAddrRaw = .ok (.elementaryTypeName (.str "address") (.str "payable")
      ⟨.str "a:0", .num 2⟩) :=
  (legacy_elementary_type_mutability_chain 0 etnAddrRaw (.obj [("name", .str "address")])
    (.str "address") ⟨.str "a:0", .num 2⟩ rfl rfl rfl rfl).1 rfl
